import Mathlib

/-!
# Verification of the ColorVision Pro core (activefilter)

A shallow embedding, in Lean 4, of the algorithmic core of the
ColorVision Pro color-vision screening application: the seeded plate
generators (`MosaicGenerator`, `AnimatedMosaic`), the scoring and
severity estimation of the two test engines (`TestEngine`,
`OutlierTestEngine`), the color-correction filter (`ColorFilter`) and
the adaptive parameter tuner (`TuningEngine`).

JavaScript numbers are modelled as exact rationals (`ℚ`);
`Math.round` / `Math.floor` are modelled exactly.  The shared `Utils`
helper module is not part of the sources; its members are modelled
from the specification and are marked `Modelled from the spec:` in
their doc comments.  Everything else is translated directly from the
JavaScript sources.
-/

namespace Utils

/-- JavaScript `Math.round`: round half-up (towards +infinity). -/
def jsRound (x : ℚ) : ℤ := ⌊x + 1/2⌋

/-- Truncation towards zero, as used by the JavaScript `%` operator. -/
def jsTrunc (q : ℚ) : ℤ := if q < 0 then ⌈q⌉ else ⌊q⌋

/-- JavaScript remainder `x % y` (sign follows the dividend). -/
def jsMod (x y : ℚ) : ℚ := x - y * (jsTrunc (x / y) : ℚ)

/-- Modelled from the spec: `Utils.clamp` (not under `src/`); clamps a
value into `[lo, hi]` (`Math.min(Math.max(x, lo), hi)`). -/
def clamp (x lo hi : ℚ) : ℚ := min (max x lo) hi

/-- Modelled from the spec: `Utils.percentage` (not under `src/`);
`round(100 × correct/total)`, defined as 0 when `total = 0`. -/
def percentage (correct total : ℕ) : ℤ :=
  if total = 0 then 0 else jsRound (100 * (correct : ℚ) / (total : ℚ))

/-- Modelled from the spec: the pseudo-random generator returned by
`Utils.createRNG` (not under `src/`).  The spec fixes only that the
stream is a deterministic function of the seed and that each call
yields a number in `[0,1)`; we realise it as a linear congruential
step on a 32-bit state.  The state is a natural number, the first
component is the output in `[0,1)`, the second the advanced state. -/
def rngNext (s : ℕ) : ℚ × ℕ :=
  let s2 := (1664525 * s + 1013904223) % 4294967296
  ((s2 : ℚ) / 4294967296, s2)

/-- Modelled from the spec: `Utils.createRNG(seed)` — the initial
generator state derived from a numeric seed. -/
def createRNG (seed : ℕ) : ℕ := seed % 4294967296

/-- Modelled from the spec: `Utils.generateSeed(str)` (not under
`src/`) — a composite seed derived deterministically from a string. -/
def generateSeed (s : String) : ℕ :=
  s.foldl (fun a c => (a * 31 + c.toNat) % 4294967296) 2166136261

/-- Modelled from the spec: `Utils.randomPick(list, rng)` (not under
`src/`); picks `list[Math.floor(rng() * list.length)]`, advancing the
generator.  `dflt` stands for the out-of-bounds JavaScript `undefined`
(never hit, since the output is in `[0,1)`). -/
def randomPick {α : Type} (l : List α) (dflt : α) (g : ℕ) : α × ℕ :=
  let (u, g1) := rngNext g
  (l.getD (Nat.floor (u * (l.length : ℚ))) dflt, g1)

end Utils

namespace Utils

/-- Modelled from the spec: `Utils.rgbToHsl` (not under `src/`); the
standard exact RGB→HSL conversion.  Input channels range over
`[0,255]`; the result is `(h, s, l)` with `h ∈ [0,360)` and
`s, l ∈ [0,100]`, computed in exact rational arithmetic. -/
def rgbToHsl (r g b : ℚ) : ℚ × ℚ × ℚ :=
  let r1 := r / 255
  let g1 := g / 255
  let b1 := b / 255
  let mx := max r1 (max g1 b1)
  let mn := min r1 (min g1 b1)
  let l := (mx + mn) / 2
  if mx = mn then (0, 0, l * 100)
  else
    let d := mx - mn
    let s := if l > 1/2 then d / (2 - mx - mn) else d / (mx + mn)
    let h6 :=
      if mx = r1 then (g1 - b1) / d + (if g1 < b1 then 6 else 0)
      else if mx = g1 then (b1 - r1) / d + 2
      else (r1 - g1) / d + 4
    (h6 * 60, s * 100, l * 100)

/-- Modelled from the spec: the `hue2rgb` helper of the standard exact
HSL→RGB conversion (`Utils.hslToRgb`, not under `src/`). -/
def hue2rgb (p q t0 : ℚ) : ℚ :=
  let t1 := if t0 < 0 then t0 + 1 else t0
  let t := if t1 > 1 then t1 - 1 else t1
  if t < 1/6 then p + (q - p) * 6 * t
  else if t < 1/2 then q
  else if t < 2/3 then p + (q - p) * (2/3 - t) * 6
  else p

/-- Modelled from the spec: `Utils.hslToRgb` (not under `src/`); the
standard exact HSL→RGB conversion.  Takes `h ∈ [0,360]`,
`s, l ∈ [0,100]` and returns the exact rational channel triple in
`[0,255]` (callers round where the JavaScript rounds). -/
def hslToRgb (h s l : ℚ) : ℚ × ℚ × ℚ :=
  let h1 := h / 360
  let s1 := s / 100
  let l1 := l / 100
  if s1 = 0 then (l1 * 255, l1 * 255, l1 * 255)
  else
    let q := if l1 < 1/2 then l1 * (1 + s1) else l1 + s1 - l1 * s1
    let p := 2 * l1 - q
    (hue2rgb p q (h1 + 1/3) * 255, hue2rgb p q h1 * 255, hue2rgb p q (h1 - 1/3) * 255)

end Utils

/-! ## ColorFilter (src/js/color-filter.js) -/

namespace ColorFilter

/-- The fixed-shape record of tunable correction-filter parameters. -/
structure FilterParams where
  hueShift : ℚ
  intensity : ℚ
  saturationBoost : ℚ
  brightness : ℚ
  contrast : ℚ
deriving DecidableEq, Repr

/-- The five named tunable parameters, used to index
`ColorFilter.paramRanges`. -/
inductive ParamKey where
  | hueShift
  | intensity
  | saturationBoost
  | brightness
  | contrast
deriving DecidableEq, Repr

/-- `{min, max, step}` of one tunable parameter. -/
structure ParamRange where
  min : ℚ
  max : ℚ
  step : ℚ
deriving DecidableEq, Repr

/-- `ColorFilter.paramRanges`: the declared range of each parameter. -/
def paramRanges : ParamKey → ParamRange
  | .hueShift => ⟨-60, 60, 5⟩
  | .intensity => ⟨0, 1, 0.1⟩
  | .saturationBoost => ⟨-20, 40, 5⟩
  | .brightness => ⟨-20, 20, 5⟩
  | .contrast => ⟨-20, 20, 5⟩

/-- The keys of `ColorFilter.paramRanges` in JavaScript enumeration
order (`Object.keys(paramRanges)`). -/
def paramKeys : List ParamKey :=
  [.hueShift, .intensity, .saturationBoost, .brightness, .contrast]

/-- The JavaScript property name of a parameter key. -/
def keyName : ParamKey → String
  | .hueShift => "hueShift"
  | .intensity => "intensity"
  | .saturationBoost => "saturationBoost"
  | .brightness => "brightness"
  | .contrast => "contrast"

/-- Property read `params[param]`. -/
def getParam (p : FilterParams) : ParamKey → ℚ
  | .hueShift => p.hueShift
  | .intensity => p.intensity
  | .saturationBoost => p.saturationBoost
  | .brightness => p.brightness
  | .contrast => p.contrast

/-- Property write `{...params, [param]: v}`. -/
def setParam (p : FilterParams) : ParamKey → ℚ → FilterParams
  | .hueShift, v => {p with hueShift := v}
  | .intensity, v => {p with intensity := v}
  | .saturationBoost, v => {p with saturationBoost := v}
  | .brightness, v => {p with brightness := v}
  | .contrast, v => {p with contrast := v}

/-- `ColorFilter.defaults`. -/
def defaults : FilterParams := ⟨0, 0.5, 0, 0, 0⟩

/-- `ColorFilter.presets`, looked up by severity-bucket name with the
source's fallback to the `moderate` preset
(`ColorFilter.getInitialParams`). -/
def getInitialParams (severity : String) : FilterParams :=
  if severity = "none" then ⟨0, 0, 0, 0, 0⟩
  else if severity = "mild" then ⟨15, 0.3, 10, 0, 5⟩
  else if severity = "moderate" then ⟨25, 0.5, 15, 0, 8⟩
  else if severity = "strong" then ⟨40, 0.7, 20, 0, 10⟩
  else ⟨25, 0.5, 15, 0, 8⟩

/-- `Math.round(x * 100) / 100`, the two-decimal rounding applied to
every neighbour value in `ColorFilter.generateNeighbors`. -/
def round2 (x : ℚ) : ℚ := (Utils.jsRound (x * 100) : ℚ) / 100

/-- One parameter of the `generateNeighbors` loop: push the variant at
`round2(value - step*stepMultiplier)` when the unrounded lower value
is ≥ min, then the variant at `round2(value + step*stepMultiplier)`
when the unrounded upper value is ≤ max. -/
def neighborsStep (params : FilterParams) (stepMultiplier : ℚ)
    (neighbors : List FilterParams) (param : ParamKey) : List FilterParams :=
  let range := paramRanges param
  let step := range.step * stepMultiplier
  let v := getParam params param
  let neighbors1 :=
    if v - step ≥ range.min then
      neighbors ++ [setParam params param (round2 (v - step))]
    else neighbors
  if v + step ≤ range.max then
    neighbors1 ++ [setParam params param (round2 (v + step))]
  else neighbors1

/-- `ColorFilter.generateNeighbors(params, stepMultiplier)`: the
per-parameter variants, in `paramRanges` enumeration order. -/
def generateNeighbors (params : FilterParams) (stepMultiplier : ℚ) : List FilterParams :=
  paramKeys.foldl (neighborsStep params stepMultiplier) []

/-- The candidates contributed by one parameter, used to state what
`generateNeighbors` produces. -/
def neighborsOfKey (params : FilterParams) (stepMultiplier : ℚ)
    (param : ParamKey) : List FilterParams :=
  let range := paramRanges param
  let step := range.step * stepMultiplier
  let v := getParam params param
  (if v - step ≥ range.min then [setParam params param (round2 (v - step))]
   else []) ++
  (if v + step ≤ range.max then [setParam params param (round2 (v + step))]
   else [])

/-- `ColorFilter.similarity(params1, params2)`:
`1 - mean over parameters of |a[p]-b[p]| / (max-min)`. -/
def similarity (params1 params2 : FilterParams) : ℚ :=
  let totalDiff := paramKeys.foldl (fun acc param =>
    let range := (paramRanges param).max - (paramRanges param).min
    acc + |getParam params1 param - getParam params2 param| / range) 0
  1 - totalDiff / (paramKeys.length : ℚ)

/-- A JavaScript object passed to `normalizeParams`, modelled as an
association list of property names to numbers. -/
def JsObject : Type := List (String × ℚ)

/-- One parameter of the `normalizeParams` loop: when the property is
present on the input object, clamp the supplied value into the
declared range, otherwise keep the accumulator (initially
`defaults`). -/
def normalizeStep (params : JsObject) (normalized : FilterParams)
    (param : ParamKey) : FilterParams :=
  match params.lookup (keyName param) with
  | some v =>
      setParam normalized param
        (Utils.clamp v (paramRanges param).min (paramRanges param).max)
  | none => normalized

/-- `ColorFilter.normalizeParams(params)`: start from `defaults`,
then for every declared parameter whose property is present on the
input object, clamp the supplied value into the declared range.
Properties with other names are never consulted. -/
def normalizeParams (params : JsObject) : FilterParams :=
  paramKeys.foldl (normalizeStep params) defaults

/-- View of a `FilterParams` record as a JavaScript object, used where
the source passes a parameter record to `normalizeParams`. -/
def toEntries (p : FilterParams) : JsObject :=
  paramKeys.map (fun k => (keyName k, getParam p k))

/-- `ColorFilter.calculateSelectiveHueShift(hue, shift, intensity)`. -/
def calculateSelectiveHueShift (hue shift intensity : ℚ) : ℚ :=
  let factor :=
    if 0 ≤ hue ∧ hue ≤ 40 then 1 - hue / 40 * 0.5
    else if 320 ≤ hue ∧ hue ≤ 360 then (hue - 320) / 40 * 0.5 + 0.5
    else if 40 ≤ hue ∧ hue ≤ 90 then 0.5 + (hue - 40) / 50 * 0.5
    else if 90 ≤ hue ∧ hue ≤ 150 then 1 - (hue - 90) / 60 * 0.5
    else 0.2
  shift * intensity * factor

/-- `ColorFilter.applyToRGB(rgb, params)`.  A missing (`null`)
parameter record is `Option.none`.  The final triple is rounded to
integers exactly as `Math.round` does. -/
def applyToRGB (rgb : ℚ × ℚ × ℚ) (params : Option FilterParams) : ℚ × ℚ × ℚ :=
  match params with
  | Option.none => rgb
  | some p =>
    if p.intensity = 0 then rgb
    else
      let (r0, g0, b0) := rgb
      let (h0, s0, l0) := Utils.rgbToHsl r0 g0 b0
      let effectiveHueShift := calculateSelectiveHueShift h0 p.hueShift p.intensity
      let h := Utils.jsMod (h0 + effectiveHueShift + 360) 360
      let s := Utils.clamp (s0 + p.saturationBoost * p.intensity) 0 100
      let (r1, g1, b1) := Utils.hslToRgb h s l0
      let (r2, g2, b2) :=
        if p.brightness ≠ 0 then
          let brightnessFactor := 1 + p.brightness * p.intensity / 100
          (Utils.clamp (r1 * brightnessFactor) 0 255,
           Utils.clamp (g1 * brightnessFactor) 0 255,
           Utils.clamp (b1 * brightnessFactor) 0 255)
        else (r1, g1, b1)
      let (r3, g3, b3) :=
        if p.contrast ≠ 0 then
          let contrastFactor := 1 + p.contrast * p.intensity / 100
          (Utils.clamp (((r2 / 255 - 0.5) * contrastFactor + 0.5) * 255) 0 255,
           Utils.clamp (((g2 / 255 - 0.5) * contrastFactor + 0.5) * 255) 0 255,
           Utils.clamp (((b2 / 255 - 0.5) * contrastFactor + 0.5) * 255) 0 255)
        else (r2, g2, b2)
      ((Utils.jsRound r3 : ℚ), (Utils.jsRound g3 : ℚ), (Utils.jsRound b3 : ℚ))

end ColorFilter

/-! ## Severity estimation
(src/js/mosaic-generator.js `TestEngine`, and the outlier test engine) -/

/-- The discretized diagnostic category. -/
inductive SeverityBucket where
  | none
  | mild
  | moderate
  | strong
  | inconclusive
deriving DecidableEq, Repr

/-- Rank of a bucket in the order none < mild < moderate < strong
(`inconclusive` sits outside the order and is ranked above all). -/
def severityRank : SeverityBucket → ℕ
  | .none => 0
  | .mild => 1
  | .moderate => 2
  | .strong => 3
  | .inconclusive => 4

/-- The severity bucket boundary table of the specification (§6),
read on the normalized severity metric: ≤ 15 `none`, 16–35 `mild`,
36–60 `moderate`, > 60 `strong`.  (The table is stated for an
integral 0–100 metric; the chain below extends it totally.) -/
def specSeverityTable (v : ℚ) : SeverityBucket :=
  if v ≤ 15 then .none
  else if 16 ≤ v ∧ v ≤ 35 then .mild
  else if 36 ≤ v ∧ v ≤ 60 then .moderate
  else .strong

namespace TestEngine

/-- The bucket chain of `TestEngine.estimateSeverity`:
`severityValue <= 15` → none, `<= 35` → mild, `<= 60` → moderate,
otherwise strong. -/
def bucketOfValue (severityValue : ℚ) : SeverityBucket :=
  if severityValue ≤ 15 then .none
  else if severityValue ≤ 35 then .mild
  else if severityValue ≤ 60 then .moderate
  else .strong

/-- `adjustedScore` of `TestEngine.estimateSeverity`: the deutan score,
rescaled relative to control performance when the control score is
imperfect but nonzero. -/
def adjustedScore (deutanScore controlScore : ℚ) : ℚ :=
  if controlScore < 100 ∧ controlScore > 0 then
    min (deutanScore / controlScore * 100) 100
  else deutanScore

/-- `severityValue` of `TestEngine.estimateSeverity` (0–100, higher =
more severe). -/
def severityValue (deutanScore controlScore : ℚ) : ℚ :=
  100 - adjustedScore deutanScore controlScore

/-- `TestEngine.getSeverityDescription(bucket)`. -/
def getSeverityDescription : SeverityBucket → String
  | .none => "No significant red-green color confusion detected. Your color vision appears normal for the tested range."
  | .mild => "Mild red-green color confusion detected. You may have subtle difficulty distinguishing some shades of red and green."
  | .moderate => "Moderate red-green color confusion detected. You likely have deuteranomaly, a common form of color vision deficiency."
  | .strong => "Strong red-green color confusion detected. You may have deuteranopia or strong deuteranomaly, significantly affecting red-green color perception."
  | .inconclusive => "No significant red-green color confusion detected. Your color vision appears normal for the tested range."

/-- Result record of `TestEngine.estimateSeverity`. -/
structure EstimatedSeverity where
  value : ℤ
  bucket : SeverityBucket
  deutanScore : ℚ
  controlScore : ℚ
  description : String
deriving DecidableEq, Repr

/-- `TestEngine.estimateSeverity(deutanScore, controlScore)`. -/
def estimateSeverity (deutanScore controlScore : ℚ) : EstimatedSeverity :=
  let sv := severityValue deutanScore controlScore
  let bucket := bucketOfValue sv
  { value := Utils.jsRound sv
    bucket := bucket
    deutanScore := deutanScore
    controlScore := controlScore
    description := getSeverityDescription bucket }

end TestEngine

namespace OutlierTestEngine

/-- One recorded response of the outlier test
(`OutlierTestEngine.state.responses` entries; only the fields used by
result calculation are modelled). -/
structure OResponse where
  plateIndex : ℕ
  plateType : String
  difficulty : String
  isCorrect : Bool
  responseTime : ℚ
  skipped : Bool
  timeout : Bool
deriving DecidableEq, Repr

/-- `{correct, total, score}` as produced by `calcScore`. -/
structure ScoreStats where
  correct : ℕ
  total : ℕ
  score : ℚ
deriving DecidableEq, Repr

/-- The `calcScore` helper inside
`OutlierTestEngine.calculateResults`: `{correct: 0, total: 0,
score: 0}` on an empty list, otherwise
`score = Math.round((correct / total) * 100)`. -/
def calcScore (responseList : List OResponse) : ScoreStats :=
  let total := responseList.length
  if total = 0 then ⟨0, 0, 0⟩
  else
    let correct := (responseList.filter (fun r => r.isCorrect)).length
    ⟨correct, total, (Utils.jsRound ((correct : ℚ) / (total : ℚ) * 100) : ℚ)⟩

/-- Result record of `OutlierTestEngine.calculateSeverity`.  The
inconclusive early return carries no performance-gap fields, hence the
`Option`s. -/
structure OSeverity where
  value : ℚ
  bucket : SeverityBucket
  description : String
  confidence : String
  performanceGap : Option ℚ
  deutanScore : Option ℚ
  controlScore : Option ℚ
deriving DecidableEq, Repr

/-- The bucket/value/description chain of
`OutlierTestEngine.calculateSeverity` for a valid control score:
thresholds on the performance gap, each with a deutan-score escape
hatch. -/
def severityBucketValue (gap deutanScore : ℚ) : SeverityBucket × ℚ × String :=
  if gap ≤ 10 ∧ deutanScore ≥ 70 then
    (SeverityBucket.none, (0 : ℚ),
     "No significant indicators of red-green color vision deficiency detected")
  else if gap ≤ 25 ∨ deutanScore ≥ 60 then
    (SeverityBucket.mild, (25 : ℚ),
     "Mild indicators of red-green color confusion detected")
  else if gap ≤ 45 ∨ deutanScore ≥ 40 then
    (SeverityBucket.moderate, (55 : ℚ),
     "Moderate indicators of red-green color vision deficiency detected")
  else
    (SeverityBucket.strong, (85 : ℚ),
     "Strong indicators of red-green color vision deficiency detected")

/-- `OutlierTestEngine.calculateSeverity(deutanStats, controlStats)`. -/
def calculateSeverity (deutanStats controlStats : ScoreStats) : OSeverity :=
  if controlStats.score < 50 then
    { value := 0
      bucket := .inconclusive
      description := "Control plate performance was too low for reliable assessment"
      confidence := "low"
      performanceGap := Option.none
      deutanScore := Option.none
      controlScore := Option.none }
  else
    let gap := controlStats.score - deutanStats.score
    let bvd := severityBucketValue gap deutanStats.score
    let confidence :=
      if controlStats.total ≥ 5 ∧ controlStats.score ≥ 80 then "high"
      else if controlStats.total < 3 ∨ controlStats.score < 60 then "low"
      else "medium"
    { value := bvd.2.1
      bucket := bvd.1
      description := bvd.2.2
      confidence := confidence
      performanceGap := some gap
      deutanScore := some deutanStats.score
      controlScore := some controlStats.score }

end OutlierTestEngine

/-! ## MosaicGenerator (src/js/mosaic-generator.js) -/

/-- An HSL color literal `{h, s, l}`. -/
structure HSL where
  h : ℚ
  s : ℚ
  l : ℚ
deriving DecidableEq, Repr

namespace MosaicGenerator

/-- One palette of `MosaicGenerator.colorPalettes`: background color
pool and target color pool. -/
structure MPalette where
  background : List HSL
  target : List HSL
deriving DecidableEq, Repr

/-- `MosaicGenerator.colorPalettes.deutanConfusion`. -/
def deutanConfusionPalettes : List MPalette :=
  [⟨[⟨120, 45, 45⟩, ⟨125, 40, 50⟩, ⟨115, 50, 40⟩, ⟨130, 42, 48⟩],
    [⟨0, 50, 45⟩, ⟨5, 45, 48⟩, ⟨355, 48, 42⟩]⟩,
   ⟨[⟨45, 35, 40⟩, ⟨50, 38, 42⟩, ⟨40, 32, 45⟩, ⟨55, 36, 38⟩],
    [⟨85, 45, 42⟩, ⟨90, 42, 45⟩, ⟨80, 48, 40⟩]⟩,
   ⟨[⟨15, 40, 42⟩, ⟨20, 38, 45⟩, ⟨10, 42, 40⟩, ⟨25, 36, 44⟩],
    [⟨140, 48, 40⟩, ⟨145, 45, 42⟩, ⟨135, 50, 38⟩]⟩,
   ⟨[⟨165, 35, 45⟩, ⟨170, 38, 42⟩, ⟨160, 32, 48⟩, ⟨175, 36, 44⟩],
    [⟨340, 45, 50⟩, ⟨345, 42, 48⟩, ⟨335, 48, 52⟩]⟩,
   ⟨[⟨150, 42, 48⟩, ⟨155, 38, 45⟩, ⟨145, 45, 50⟩, ⟨160, 40, 46⟩],
    [⟨25, 55, 50⟩, ⟨30, 52, 48⟩, ⟨20, 58, 52⟩]⟩]

/-- `MosaicGenerator.colorPalettes.control`. -/
def controlPalettes : List MPalette :=
  [⟨[⟨220, 50, 50⟩, ⟨225, 48, 52⟩, ⟨215, 52, 48⟩, ⟨230, 46, 54⟩],
    [⟨55, 70, 55⟩, ⟨60, 68, 52⟩, ⟨50, 72, 58⟩]⟩,
   ⟨[⟨270, 45, 45⟩, ⟨275, 42, 48⟩, ⟨265, 48, 42⟩, ⟨280, 44, 46⟩],
    [⟨48, 65, 55⟩, ⟨52, 62, 58⟩, ⟨44, 68, 52⟩]⟩,
   ⟨[⟨235, 55, 35⟩, ⟨240, 52, 38⟩, ⟨230, 58, 32⟩, ⟨245, 50, 36⟩],
    [⟨35, 80, 65⟩, ⟨40, 78, 62⟩, ⟨30, 82, 68⟩]⟩]

/-- `MosaicGenerator.targetPatterns.numbers`. -/
def targetNumbers : List String := ["2", "3", "5", "6", "7", "8", "9"]

/-- `MosaicGenerator.targetPatterns.letters`. -/
def targetLetters : List String :=
  ["A", "C", "E", "H", "K", "N", "O", "P", "S", "X"]

/-- `MosaicGenerator.targetPatterns.shapes`. -/
def targetShapes : List String := ["circle", "square", "triangle", "diamond"]

/-- A target descriptor `{type, value}`. -/
structure Target where
  type : String
  value : String
deriving DecidableEq, Repr

/-- `MosaicGenerator.getCharacterPatterns()`: the 5×7 bitmaps of the
symbolic targets, keyed by character. -/
def getCharacterPatterns : List (String × List (List ℕ)) :=
  [("2", [[0,1,1,1,0], [1,0,0,0,1], [0,0,0,0,1], [0,0,1,1,0], [0,1,0,0,0], [1,0,0,0,0], [1,1,1,1,1]]),
   ("3", [[0,1,1,1,0], [1,0,0,0,1], [0,0,0,0,1], [0,0,1,1,0], [0,0,0,0,1], [1,0,0,0,1], [0,1,1,1,0]]),
   ("5", [[1,1,1,1,1], [1,0,0,0,0], [1,1,1,1,0], [0,0,0,0,1], [0,0,0,0,1], [1,0,0,0,1], [0,1,1,1,0]]),
   ("6", [[0,0,1,1,0], [0,1,0,0,0], [1,0,0,0,0], [1,1,1,1,0], [1,0,0,0,1], [1,0,0,0,1], [0,1,1,1,0]]),
   ("7", [[1,1,1,1,1], [0,0,0,0,1], [0,0,0,1,0], [0,0,1,0,0], [0,1,0,0,0], [0,1,0,0,0], [0,1,0,0,0]]),
   ("8", [[0,1,1,1,0], [1,0,0,0,1], [1,0,0,0,1], [0,1,1,1,0], [1,0,0,0,1], [1,0,0,0,1], [0,1,1,1,0]]),
   ("9", [[0,1,1,1,0], [1,0,0,0,1], [1,0,0,0,1], [0,1,1,1,1], [0,0,0,0,1], [0,0,0,1,0], [0,1,1,0,0]]),
   ("A", [[0,0,1,0,0], [0,1,0,1,0], [1,0,0,0,1], [1,0,0,0,1], [1,1,1,1,1], [1,0,0,0,1], [1,0,0,0,1]]),
   ("C", [[0,1,1,1,0], [1,0,0,0,1], [1,0,0,0,0], [1,0,0,0,0], [1,0,0,0,0], [1,0,0,0,1], [0,1,1,1,0]]),
   ("E", [[1,1,1,1,1], [1,0,0,0,0], [1,0,0,0,0], [1,1,1,1,0], [1,0,0,0,0], [1,0,0,0,0], [1,1,1,1,1]]),
   ("H", [[1,0,0,0,1], [1,0,0,0,1], [1,0,0,0,1], [1,1,1,1,1], [1,0,0,0,1], [1,0,0,0,1], [1,0,0,0,1]]),
   ("K", [[1,0,0,0,1], [1,0,0,1,0], [1,0,1,0,0], [1,1,0,0,0], [1,0,1,0,0], [1,0,0,1,0], [1,0,0,0,1]]),
   ("N", [[1,0,0,0,1], [1,1,0,0,1], [1,0,1,0,1], [1,0,0,1,1], [1,0,0,0,1], [1,0,0,0,1], [1,0,0,0,1]]),
   ("O", [[0,1,1,1,0], [1,0,0,0,1], [1,0,0,0,1], [1,0,0,0,1], [1,0,0,0,1], [1,0,0,0,1], [0,1,1,1,0]]),
   ("P", [[1,1,1,1,0], [1,0,0,0,1], [1,0,0,0,1], [1,1,1,1,0], [1,0,0,0,0], [1,0,0,0,0], [1,0,0,0,0]]),
   ("S", [[0,1,1,1,0], [1,0,0,0,1], [1,0,0,0,0], [0,1,1,1,0], [0,0,0,0,1], [1,0,0,0,1], [0,1,1,1,0]]),
   ("X", [[1,0,0,0,1], [0,1,0,1,0], [0,0,1,0,0], [0,0,1,0,0], [0,0,1,0,0], [0,1,0,1,0], [1,0,0,0,1]])]

/-- Set `mask[r][c] = true` on a row-major boolean grid. -/
def maskSet (m : List (List Bool)) (r c : ℕ) : List (List Bool) :=
  m.set r ((m.getD r []).set c true)

/-- `MosaicGenerator.createTargetMask(gridSize, target, rng)`.  The
`rng` parameter is threaded through as in the source but never drawn
from.  For symbolic targets, the 5×7 bitmap is scaled by
`gridSize / 14`; a JavaScript `for (let sy = 0; sy < scale; sy++)`
loop over a rational bound runs for the `⌈scale⌉` integer values below
it.  For shapes, each cell is tested by the closed-form inequality of
the shape (the source compares `Math.sqrt(dx² + dy²) < radius` for the
circle; squaring both (nonnegative) sides is exact). -/
def createTargetMask (gridSize : ℕ) (target : Target) (rng : ℕ) : List (List Bool) :=
  let _ := rng
  let mask0 := List.replicate gridSize (List.replicate gridSize (false : Bool))
  let centerX : ℚ := (gridSize : ℚ) / 2
  let centerY : ℚ := (gridSize : ℚ) / 2
  let scale : ℚ := (gridSize : ℚ) / 14
  if target.type = "number" ∨ target.type = "letter" then
    match getCharacterPatterns.lookup target.value with
    | Option.none => mask0
    | some pattern =>
      let patternHeight := pattern.length
      let patternWidth := (pattern.headD []).length
      let startRow : ℤ := ⌊((gridSize : ℚ) - (patternHeight : ℚ) * scale) / 2⌋
      let startCol : ℤ := ⌊((gridSize : ℚ) - (patternWidth : ℚ) * scale) / 2⌋
      let scaleIter : ℕ := Nat.ceil scale
      (List.range patternHeight).foldl (fun m py =>
        (List.range patternWidth).foldl (fun m px =>
          if (pattern.getD py []).getD px 0 = 1 then
            (List.range scaleIter).foldl (fun m sy =>
              (List.range scaleIter).foldl (fun m sx =>
                let row : ℤ := ⌊(startRow : ℚ) + (py : ℚ) * scale + (sy : ℚ)⌋
                let col : ℤ := ⌊(startCol : ℚ) + (px : ℚ) * scale + (sx : ℚ)⌋
                if 0 ≤ row ∧ row < (gridSize : ℤ) ∧ 0 ≤ col ∧ col < (gridSize : ℤ) then
                  maskSet m row.toNat col.toNat
                else m) m) m
          else m) m) mask0
  else if target.type = "shape" then
    let radius : ℚ := (gridSize : ℚ) * 0.35
    (List.range gridSize).map (fun row =>
      (List.range gridSize).map (fun col =>
        let dx : ℚ := (col : ℚ) - centerX + 0.5
        let dy : ℚ := (row : ℚ) - centerY + 0.5
        if target.value = "circle" then decide (dx ^ 2 + dy ^ 2 < radius ^ 2)
        else if target.value = "square" then
          decide (|dx| < radius * 0.7 ∧ |dy| < radius * 0.7)
        else if target.value = "triangle" then
          decide (dy > -radius * 0.6 ∧ dy < radius * 0.6 ∧ |dx| < radius * 0.6 - dy * 0.5)
        else if target.value = "diamond" then
          decide (|dx| + |dy| < radius * 0.8)
        else false))
  else mask0

/-- `MosaicGenerator.applyFilterToHSL(hsl, filterParams)`. -/
def applyFilterToHSL (hsl : HSL) (filterParams : Option ColorFilter.FilterParams) : HSL :=
  match filterParams with
  | Option.none => hsl
  | some p =>
    { h := Utils.jsMod (hsl.h + p.hueShift * p.intensity + 360) 360
      s := Utils.clamp (hsl.s + p.saturationBoost * p.intensity) 0 100
      l := hsl.l }

/-- Lowercase hexadecimal digit. -/
def hexDigit (n : ℕ) : Char :=
  if n < 10 then Char.ofNat (48 + n) else Char.ofNat (87 + n)

/-- Two-digit lowercase hexadecimal rendering of one rounded channel. -/
def hexByte (q : ℚ) : String :=
  let n := (Utils.jsRound q).toNat % 256
  String.mk [hexDigit (n / 16), hexDigit (n % 16)]

/-- Modelled from the spec: `Utils.rgbToHex` (not under `src/`); the
renderable hex string of an RGB triple. -/
def rgbToHex (r g b : ℚ) : String :=
  "#" ++ hexByte r ++ hexByte g ++ hexByte b

/-- One tile of a mosaic plate. -/
structure Tile where
  row : ℕ
  col : ℕ
  x : ℤ
  y : ℤ
  size : ℤ
  isTarget : Bool
  color : String
  rgb : ℚ × ℚ × ℚ
deriving DecidableEq, Repr

/-- One iteration of the tile loop of
`MosaicGenerator.generateTiles`: pick a base color from the palette
pool given by mask membership, add seeded jitter, optionally apply the
correction filter, convert to RGB. -/
def genTile (tileSize : ℤ) (palette : MPalette) (mask : List (List Bool))
    (filterParams : Option ColorFilter.FilterParams) (row col : ℕ) (g : ℕ) :
    Tile × ℕ :=
  let isTarget := (mask.getD row []).getD col false
  let colorSet := if isTarget then palette.target else palette.background
  let (baseColor, g1) := Utils.randomPick colorSet ⟨0, 0, 0⟩ g
  let (u1, g2) := Utils.rngNext g1
  let (u2, g3) := Utils.rngNext g2
  let (u3, g4) := Utils.rngNext g3
  let color : HSL :=
    ⟨baseColor.h + (u1 - 0.5) * 8, baseColor.s + (u2 - 0.5) * 6,
     baseColor.l + (u3 - 0.5) * 6⟩
  let color := applyFilterToHSL color filterParams
  let rgb := Utils.hslToRgb color.h color.s color.l
  ({ row := row, col := col, x := (col : ℤ) * tileSize, y := (row : ℤ) * tileSize,
     size := tileSize, isTarget := isTarget,
     color := rgbToHex rgb.1 rgb.2.1 rgb.2.2, rgb := rgb }, g4)

/-- `MosaicGenerator.generateTiles(tileCount, tileSize, palette,
target, rng, filterParams)`: build the target mask, then assign every
cell in row-major order, threading the seeded generator. -/
def generateTiles (tileCount : ℕ) (tileSize : ℤ) (palette : MPalette)
    (target : Target) (g : ℕ) (filterParams : Option ColorFilter.FilterParams) :
    List Tile × ℕ :=
  let targetMask := createTargetMask tileCount target g
  (List.range tileCount).foldl (fun acc row =>
    (List.range tileCount).foldl (fun (acc : List Tile × ℕ) col =>
      let (tile, g1) := genTile tileSize palette targetMask filterParams row col acc.2
      (acc.1 ++ [tile], g1)) acc) (([] : List Tile), g)

/-- The request record of `MosaicGenerator.generatePlate`, with the
source's destructuring defaults.  A request without a seed falls back
to a fresh `Utils.generateSeed()`, modelled by the explicit entropy
argument of `generatePlate`. -/
structure GenerateOptions where
  size : ℚ := 400
  type : String := "deutanConfusion"
  seed : Option ℕ := Option.none
  difficulty : String := "medium"
  targetType : String := "number"
  filterParams : Option ColorFilter.FilterParams := Option.none
deriving DecidableEq, Repr

/-- A complete generated mosaic plate. -/
structure Plate where
  seed : ℕ
  size : ℚ
  tileCount : ℕ
  tileSize : ℤ
  type : String
  difficulty : String
  palette : MPalette
  target : Target
  filterParams : Option ColorFilter.FilterParams
  tiles : List Tile
deriving DecidableEq, Repr

/-- The `tileCounts[difficulty] || 14` table of
`MosaicGenerator.generatePlate`. -/
def tileCountFor (difficulty : String) : ℕ :=
  if difficulty = "easy" then 10
  else if difficulty = "medium" then 14
  else if difficulty = "hard" then 18
  else 14

/-- `MosaicGenerator.generatePlate` with the seed already resolved. -/
def generatePlateSeeded (options : GenerateOptions) (seed : ℕ) : Plate :=
  let rng := Utils.createRNG seed
  let tileCount := tileCountFor options.difficulty
  let tileSize : ℤ := ⌊options.size / (tileCount : ℚ)⌋
  let palettes :=
    if options.type = "control" then controlPalettes else deutanConfusionPalettes
  let (palette, rng1) := Utils.randomPick palettes ⟨[], []⟩ rng
  let (target, rng2) :=
    if options.targetType = "number" then
      let (v, g) := Utils.randomPick targetNumbers "" rng1
      ((⟨"number", v⟩ : Target), g)
    else if options.targetType = "letter" then
      let (v, g) := Utils.randomPick targetLetters "" rng1
      ((⟨"letter", v⟩ : Target), g)
    else
      let (v, g) := Utils.randomPick targetShapes "" rng1
      ((⟨"shape", v⟩ : Target), g)
  let (tiles, _) := generateTiles tileCount tileSize palette target rng2 options.filterParams
  { seed := seed, size := options.size, tileCount := tileCount,
    tileSize := tileSize, type := options.type,
    difficulty := options.difficulty, palette := palette, target := target,
    filterParams := options.filterParams, tiles := tiles }

/-- `MosaicGenerator.generatePlate(options)`.  `entropy` models the
ambient randomness consumed by the `Utils.generateSeed()` default; it
is consulted only when the request carries no seed. -/
def generatePlate (options : GenerateOptions) (entropy : ℕ) : Plate :=
  generatePlateSeeded options (options.seed.getD entropy)

end MosaicGenerator

/-! ## AnimatedMosaic (src/js/animated-mosaic.js) -/

namespace AnimatedMosaic

/-- One palette of `AnimatedMosaic.palettes`: a background hue, an
outlier hue, and the per-square variance amplitudes. -/
structure APalette where
  name : String
  background : HSL
  outlier : HSL
  variance : HSL
deriving DecidableEq, Repr

/-- `AnimatedMosaic.palettes.deutan`. -/
def palettesDeutan : List APalette :=
  [⟨"green-red", ⟨120, 45, 45⟩, ⟨0, 50, 45⟩, ⟨15, 10, 8⟩⟩,
   ⟨"olive-lime", ⟨50, 40, 42⟩, ⟨85, 45, 42⟩, ⟨12, 8, 6⟩⟩,
   ⟨"brown-green", ⟨20, 42, 44⟩, ⟨140, 48, 42⟩, ⟨10, 8, 7⟩⟩,
   ⟨"teal-pink", ⟨165, 38, 46⟩, ⟨340, 45, 50⟩, ⟨14, 10, 8⟩⟩,
   ⟨"cyan-orange", ⟨155, 42, 48⟩, ⟨25, 55, 50⟩, ⟨12, 10, 7⟩⟩,
   ⟨"sage-coral", ⟨100, 35, 50⟩, ⟨10, 60, 52⟩, ⟨15, 10, 8⟩⟩]

/-- `AnimatedMosaic.palettes.control`. -/
def palettesControl : List APalette :=
  [⟨"blue-yellow", ⟨220, 55, 48⟩, ⟨55, 75, 55⟩, ⟨12, 10, 8⟩⟩,
   ⟨"purple-yellow", ⟨275, 50, 45⟩, ⟨50, 70, 55⟩, ⟨14, 10, 7⟩⟩,
   ⟨"navy-orange", ⟨235, 55, 35⟩, ⟨35, 80, 60⟩, ⟨10, 10, 8⟩⟩]

/-- `config.gridSizes[difficulty] || 3`. -/
def gridSizeFor (difficulty : String) : ℕ :=
  if difficulty = "easy" then 2
  else if difficulty = "medium" then 3
  else if difficulty = "hard" then 4
  else 3

/-- `config.tilesPerSquare[difficulty] || 10`. -/
def tilesPerSquareFor (difficulty : String) : ℕ :=
  if difficulty = "easy" then 8
  else if difficulty = "medium" then 10
  else if difficulty = "hard" then 12
  else 10

/-- The value of the JavaScript double `Math.PI`, as a rational.  It
only scales the stored animation phases; no claim depends on its
numeric value. -/
def mathPi : ℚ := 3.141592653589793

/-- One square of an animated plate, with its renderer animation
parameters. -/
structure Square where
  index : ℕ
  row : ℕ
  col : ℕ
  isOutlier : Bool
  baseColor : HSL
  variance : HSL
  animPhase : ℚ
  animSpeed : ℚ
  flowDirection : ℚ
deriving DecidableEq, Repr

/-- The body of the square loop of `AnimatedMosaic.generatePlate`.
The speed jitter draws from the generator only for the outlier square
(a conditional `rng()` call inside the JavaScript ternary). -/
def mkSquare (gridSize outlierIndex : ℕ) (palette : APalette) (subtlety : ℚ)
    (i : ℕ) (g : ℕ) : Square × ℕ :=
  let isOutlier := i == outlierIndex
  let (u1, g1) := Utils.rngNext g
  let (animSpeed, g2) :=
    if isOutlier then
      let (u, g2) := Utils.rngNext g1
      (1 + (u - 0.5) * 0.2 * subtlety, g2)
    else ((1 : ℚ), g1)
  let (u3, g3) := Utils.rngNext g2
  ({ index := i, row := i / gridSize, col := i % gridSize,
     isOutlier := isOutlier,
     baseColor := if isOutlier then palette.outlier else palette.background,
     variance := palette.variance,
     animPhase := u1 * mathPi * 2,
     animSpeed := animSpeed,
     flowDirection := u3 * mathPi * 2 }, g3)

/-- The square loop of `AnimatedMosaic.generatePlate`: build squares
`i, i+1, …, i+n-1`, threading the generator. -/
def mkSquares (gridSize outlierIndex : ℕ) (palette : APalette) (subtlety : ℚ) :
    ℕ → ℕ → ℕ → List Square × ℕ
  | 0, _, g => ([], g)
  | n + 1, i, g =>
    let (sq, g1) := mkSquare gridSize outlierIndex palette subtlety i g
    let (rest, g2) := mkSquares gridSize outlierIndex palette subtlety n (i + 1) g1
    (sq :: rest, g2)

/-- The request record of `AnimatedMosaic.generatePlate`, with the
source's destructuring defaults. -/
structure AnimOptions where
  difficulty : String := "medium"
  type : String := "deutan"
  seed : Option ℕ := Option.none
  subtlety : ℚ := 1
deriving DecidableEq, Repr

/-- A complete animated outlier plate. -/
structure APlate where
  seed : ℕ
  difficulty : String
  type : String
  subtlety : ℚ
  gridSize : ℕ
  tilesPerSquare : ℕ
  palette : APalette
  outlierIndex : ℕ
  squares : List Square
  startTime : ℚ
deriving DecidableEq, Repr

/-- `AnimatedMosaic.generatePlate` with the seed already resolved.
`noise.init(seed)` only refills the renderer's permutation table from
its own generator instance; it does not advance `rng` and contributes
nothing to the returned plate, so it has no counterpart here. -/
def generatePlateSeeded (options : AnimOptions) (seed : ℕ) : APlate :=
  let rng := Utils.createRNG seed
  let gridSize := gridSizeFor options.difficulty
  let tilesPerSquare := tilesPerSquareFor options.difficulty
  let paletteList :=
    if options.type = "control" then palettesControl else palettesDeutan
  let (palette, rng1) :=
    Utils.randomPick paletteList ⟨"", ⟨0, 0, 0⟩, ⟨0, 0, 0⟩, ⟨0, 0, 0⟩⟩ rng
  let totalSquares := gridSize * gridSize
  let (u, rng2) := Utils.rngNext rng1
  let outlierIndex := Nat.floor (u * (totalSquares : ℚ))
  let (squares, _) :=
    mkSquares gridSize outlierIndex palette options.subtlety totalSquares 0 rng2
  { seed := seed, difficulty := options.difficulty, type := options.type,
    subtlety := options.subtlety, gridSize := gridSize,
    tilesPerSquare := tilesPerSquare, palette := palette,
    outlierIndex := outlierIndex, squares := squares, startTime := 0 }

/-- `AnimatedMosaic.generatePlate(options)`.  `entropy` models the
ambient randomness consumed by the `Utils.generateSeed()` default; it
is consulted only when the request carries no seed. -/
def generatePlate (options : AnimOptions) (entropy : ℕ) : APlate :=
  generatePlateSeeded options (options.seed.getD entropy)

end AnimatedMosaic

/-! ## TestEngine trial sequencing (src/js/mosaic-generator.js) -/

namespace TestEngine

/-- One recorded response of `TestEngine` (`state.responses`
entries). -/
structure TEResponse where
  plateIndex : ℕ
  plateType : String
  targetType : String
  targetValue : String
  userResponse : Option String
  isCorrect : Bool
  responseTime : ℚ
  difficulty : String
  seed : ℕ
deriving DecidableEq, Repr

/-- The mutable `TestEngine.state` record (time stamps are rationals,
callbacks are external and unmodelled). -/
structure TEState where
  isRunning : Bool
  currentPlateIndex : ℕ
  plates : List MosaicGenerator.Plate
  responses : List TEResponse
  startTime : ℚ
  plateStartTime : ℚ
  filterParams : Option ColorFilter.FilterParams
  mode : String
deriving DecidableEq, Repr

/-- `TestEngine.getCurrentPlate()`: `plates[index] || null`. -/
def getCurrentPlate (st : TEState) : Option MosaicGenerator.Plate :=
  st.plates.get? st.currentPlateIndex

/-- Case/whitespace normalization of `TestEngine.checkAnswer`
(`String(x).toLowerCase().trim()`). -/
def jsNormalize (s : String) : String := s.toLower.trim

/-- `TestEngine.checkAnswer(response, plate)`; `Option.none` models a
`null`/`undefined` response. -/
def checkAnswer (response : Option String) (plate : MosaicGenerator.Plate) : Bool :=
  match response with
  | Option.none => false
  | some r =>
    if r = "none" then false
    else jsNormalize r == jsNormalize plate.target.value

/-- `TestEngine.recordResponse(response)` at wall-clock time `now`.
If no current plate exists the call returns with the state untouched
(the source's `if (!plate) return;`); otherwise the response is
appended and the index advanced — whether or not the test was ever
started — and reaching the end of the plate list triggers
`complete()`, which clears `isRunning`.  No error is signalled in
either case. -/
def recordResponse (st : TEState) (response : Option String) (now : ℚ) : TEState :=
  match getCurrentPlate st with
  | Option.none => st
  | some plate =>
    let responseTime := now - st.plateStartTime
    let responseData : TEResponse :=
      { plateIndex := st.currentPlateIndex, plateType := plate.type,
        targetType := plate.target.type, targetValue := plate.target.value,
        userResponse := response, isCorrect := checkAnswer response plate,
        responseTime := responseTime, difficulty := plate.difficulty,
        seed := plate.seed }
    let st1 := { st with responses := st.responses ++ [responseData],
                         currentPlateIndex := st.currentPlateIndex + 1 }
    if st1.currentPlateIndex ≥ st1.plates.length then
      { st1 with isRunning := false }
    else
      { st1 with plateStartTime := now }

end TestEngine

/-! ## TuningEngine (adaptive tuner) -/

namespace TuningEngine

/-- `TuningEngine.config`. -/
structure TunerConfig where
  maxRounds : ℕ
  platesPerRound : ℕ
  improvementThreshold : ℚ
  maxNoImprovement : ℕ
deriving DecidableEq, Repr

/-- The source's configuration constants: round budget 5, 5 plates per
round, stop after 2 rounds without improvement. -/
def config : TunerConfig :=
  { maxRounds := 5, platesPerRound := 5, improvementThreshold := 5,
    maxNoImprovement := 2 }

/-- One entry of `state.history` (`roundResult`; the raw responses are
summarized by their correct/total counts). -/
structure RoundResult where
  round : ℕ
  params : ColorFilter.FilterParams
  score : ℚ
  correct : ℕ
  total : ℕ
deriving DecidableEq, Repr

/-- The round-level part of `TuningEngine.state`. -/
structure TunerState where
  isRunning : Bool
  currentRound : ℕ
  maxRounds : ℕ
  currentParams : ColorFilter.FilterParams
  bestParams : ColorFilter.FilterParams
  bestScore : ℚ
  baselineScore : ℚ
  noImprovementCount : ℕ
  history : List RoundResult
deriving DecidableEq, Repr

/-- `TuningEngine.init({baselineSeverity, baselineScore})`. -/
def init (cfg : TunerConfig) (baselineSeverity : String) (baselineScore : ℚ) :
    TunerState :=
  let initialParams := ColorFilter.getInitialParams baselineSeverity
  { isRunning := false, currentRound := 0, maxRounds := cfg.maxRounds,
    currentParams := initialParams, bestParams := initialParams,
    bestScore := baselineScore, baselineScore := baselineScore,
    noImprovementCount := 0, history := [] }

/-- `TuningEngine.completeRound()` after a round whose responses
counted `correct` of `total`: append the round result, then update the
best score or the no-improvement counter. -/
def completeRound (st : TunerState) (correct total : ℕ) : TunerState :=
  let score : ℚ := (Utils.percentage correct total : ℚ)
  let roundResult : RoundResult :=
    ⟨st.currentRound, st.currentParams, score, correct, total⟩
  let best :=
    if score > st.bestScore then (score, st.currentParams, 0)
    else (st.bestScore, st.bestParams, st.noImprovementCount + 1)
  { st with history := st.history ++ [roundResult],
            bestScore := best.1, bestParams := best.2.1,
            noImprovementCount := best.2.2 }

/-- `TuningEngine.shouldContinue()`. -/
def shouldContinue (cfg : TunerConfig) (st : TunerState) : Bool :=
  if st.currentRound ≥ st.maxRounds then false
  else if st.bestScore ≥ 100 then false
  else if st.noImprovementCount ≥ cfg.maxNoImprovement then false
  else true

/-- `TuningEngine.exploreNewDirection(baseParams)`: perturb every
parameter by a random offset bounded by its step and clamp it into
range.  `rnd` models the source's direct `Math.random` draws, one per
parameter. -/
def exploreNewDirection (rnd : ColorFilter.ParamKey → ℚ)
    (baseParams : ColorFilter.FilterParams) : ColorFilter.FilterParams :=
  ColorFilter.paramKeys.foldl (fun newParams param =>
    let range := ColorFilter.paramRanges param
    let perturbation := (rnd param - 0.5) * range.step * 2
    ColorFilter.setParam newParams param
      (Utils.clamp (ColorFilter.getParam newParams param + perturbation)
        range.min range.max)) baseParams

/-- The parameter choice of `TuningEngine.adjustParameters()`.  `pick`
models the unseeded `Utils.randomPick(list)` draws (backed by
`Math.random` in the source), `rnd` the draws of
`exploreNewDirection`.  The result is always passed through
`ColorFilter.normalizeParams`. -/
def nextParams (pick : List ColorFilter.FilterParams → ColorFilter.FilterParams)
    (rnd : ColorFilter.ParamKey → ℚ) (st : TunerState) : ColorFilter.FilterParams :=
  let chosen :=
    match st.history.getLast? with
    | Option.none => st.currentParams
    | some lastRound =>
      if lastRound.score < st.bestScore then
        let neighbors := ColorFilter.generateNeighbors st.bestParams 1
        let unexplored := neighbors.filter (fun n =>
          !(st.history.any (fun h => decide (ColorFilter.similarity h.params n > 0.95))))
        if unexplored.length > 0 then pick unexplored
        else pick (ColorFilter.generateNeighbors st.bestParams 0.5)
      else
        let neighbors := ColorFilter.generateNeighbors st.currentParams 1
        let unexplored := neighbors.filter (fun n =>
          !(st.history.any (fun h => decide (ColorFilter.similarity h.params n > 0.9))))
        if unexplored.length > 0 then pick unexplored
        else exploreNewDirection rnd st.currentParams
  ColorFilter.normalizeParams (ColorFilter.toEntries chosen)

/-- `TuningEngine.adjustParameters()`. -/
def adjustParameters (pick : List ColorFilter.FilterParams → ColorFilter.FilterParams)
    (rnd : ColorFilter.ParamKey → ℚ) (st : TunerState) : TunerState :=
  { st with currentParams := nextParams pick rnd st }

/-- The round loop driven by `startRound → … → completeRound`:
`startRound` increments the round counter and plays the round's plates
(summarized by the `outcome` oracle, which yields the correct/total
counts of round `r`); `completeRound` updates the search state; then
the loop either adjusts parameters and recurses, or stops — exactly
the control flow of `completeRound`'s tail in the source. -/
def tuningLoop (cfg : TunerConfig) (outcome : ℕ → ℕ × ℕ)
    (pick : List ColorFilter.FilterParams → ColorFilter.FilterParams)
    (rnd : ColorFilter.ParamKey → ℚ) (st : TunerState) : TunerState :=
  let stStarted := { st with currentRound := st.currentRound + 1 }
  let roundOutcome := outcome stStarted.currentRound
  let stDone := completeRound stStarted roundOutcome.1 roundOutcome.2
  if shouldContinue cfg stDone then
    tuningLoop cfg outcome pick rnd (adjustParameters pick rnd stDone)
  else stDone
termination_by st.maxRounds - st.currentRound
decreasing_by
  rename_i h
  unfold_let stDone stStarted roundOutcome at h ⊢
  simp only [shouldContinue, completeRound, adjustParameters] at h ⊢
  split at h
  · simp at h
  · omega

/-- One entry of `state.plateResponses`. -/
structure PlateResponse where
  plateIndex : ℕ
  plateType : String
  targetValue : String
  userResponse : Option String
  isCorrect : Bool
  responseTime : ℚ
deriving DecidableEq, Repr

/-- The plate-level part of `TuningEngine.state` used while a round's
plates are being answered. -/
structure PlateRunState where
  plateIndex : ℕ
  currentPlates : List MosaicGenerator.Plate
  plateResponses : List PlateResponse
  plateStartTime : ℚ
deriving DecidableEq, Repr

/-- `TuningEngine.getCurrentPlate()`: `currentPlates[plateIndex] || null`. -/
def getCurrentPlate (st : PlateRunState) : Option MosaicGenerator.Plate :=
  st.currentPlates.get? st.plateIndex

/-- `TuningEngine.recordResponse(response)` at wall-clock time `now`.
With no current plate the call returns with the state untouched (the
source's `if (!plate) return;`), and no error is signalled.  The
returned flag reports whether the plate list was exhausted, i.e.
whether the source would now call `completeRound()`. -/
def recordResponse (st : PlateRunState) (response : Option String) (now : ℚ) :
    PlateRunState × Bool :=
  match getCurrentPlate st with
  | Option.none => (st, false)
  | some plate =>
    let responseData : PlateResponse :=
      { plateIndex := st.plateIndex, plateType := plate.type,
        targetValue := plate.target.value, userResponse := response,
        isCorrect := response == some plate.target.value,
        responseTime := now - st.plateStartTime }
    let st1 := { st with plateResponses := st.plateResponses ++ [responseData],
                         plateIndex := st.plateIndex + 1 }
    (st1, decide (st1.plateIndex ≥ st1.currentPlates.length))

/-- `TuningEngine.start()` from a freshly initialized engine. -/
def start (cfg : TunerConfig) (outcome : ℕ → ℕ × ℕ)
    (pick : List ColorFilter.FilterParams → ColorFilter.FilterParams)
    (rnd : ColorFilter.ParamKey → ℚ) (baselineSeverity : String)
    (baselineScore : ℚ) : TunerState :=
  tuningLoop cfg outcome pick rnd
    { init cfg baselineSeverity baselineScore with isRunning := true }

end TuningEngine

namespace ColorFilter

/-- Every parameter of the record lies in its declared
`paramRanges` interval. -/
def inDeclaredRanges (p : FilterParams) : Prop :=
  ∀ k ∈ paramKeys,
    (paramRanges k).min ≤ getParam p k ∧ getParam p k ≤ (paramRanges k).max

instance : DecidablePred inDeclaredRanges := fun _ =>
  List.decidableBAll _ paramKeys

end ColorFilter

/-! ## Shared numeric lemmas -/

theorem Utils.jsRound_nonneg {x : ℚ} (h : 0 ≤ x) : 0 ≤ Utils.jsRound x := by
  unfold Utils.jsRound
  exact Int.floor_nonneg.mpr (by linarith)

theorem Utils.jsRound_le_of_le_intCast {x : ℚ} {n : ℤ} (h : x ≤ (n : ℚ)) :
    Utils.jsRound x ≤ n := by
  unfold Utils.jsRound
  have hlt : x + 1/2 < ((n + 1 : ℤ) : ℚ) := by push_cast; linarith
  exact Int.lt_add_one_iff.mp (Int.floor_lt.mpr hlt)

theorem Utils.jsRound_intCast (n : ℤ) : Utils.jsRound (n : ℚ) = n := by
  unfold Utils.jsRound
  rw [add_comm, Int.floor_add_int]
  norm_num

theorem Utils.jsRound_mono {x y : ℚ} (h : x ≤ y) :
    Utils.jsRound x ≤ Utils.jsRound y := by
  unfold Utils.jsRound
  exact Int.floor_le_floor (by linarith)

/-- `(h + 0 + 360) % 360 = h` for an in-range hue. -/
theorem Utils.jsMod_add_self_eq {h : ℚ} (h0 : 0 ≤ h) (h1 : h < 360) :
    Utils.jsMod (h + 360) 360 = h := by
  unfold Utils.jsMod Utils.jsTrunc
  have hq : (h + 360) / 360 = h / 360 + 1 := by ring
  have h2 : 0 ≤ (h + 360) / 360 := by positivity
  rw [if_neg (not_lt.mpr h2), hq]
  have hfl : ⌊h / 360 + 1⌋ = ⌊h / 360⌋ + 1 := by
    exact_mod_cast Int.floor_add_int (h / 360) 1
  have hz : ⌊h / 360⌋ = 0 := by
    rw [Int.floor_eq_zero_iff]
    constructor
    · positivity
    · rw [div_lt_one (by norm_num)]; linarith
  rw [hfl, hz]
  push_cast
  ring

theorem Utils.clamp_eq_self {x lo hi : ℚ} (h1 : lo ≤ x) (h2 : x ≤ hi) :
    Utils.clamp x lo hi = x := by
  unfold Utils.clamp
  rw [max_eq_left h1, min_eq_left h2]

theorem Utils.clamp_mem {x lo hi : ℚ} (h : lo ≤ hi) :
    lo ≤ Utils.clamp x lo hi ∧ Utils.clamp x lo hi ≤ hi := by
  unfold Utils.clamp
  constructor
  · exact le_min (le_max_right x lo) h
  · exact min_le_right _ _

theorem Utils.rngNext_mem (s : ℕ) :
    0 ≤ (Utils.rngNext s).1 ∧ (Utils.rngNext s).1 < 1 := by
  unfold Utils.rngNext
  constructor
  · positivity
  · rw [div_lt_one (by norm_num)]
    exact_mod_cast Nat.mod_lt _ (by norm_num)

/-! ## Claim theorems -/

/-- Claim C5: for every list of response records, the per-category
score satisfies `0 ≤ score ≤ 100`, equals
`round(100 × correct/total)` when the category is populated, and a
category with zero recorded trials yields the zero statistics record
without any error path. -/
theorem claim5_score_bounds (responseList : List OutlierTestEngine.OResponse) :
    0 ≤ (OutlierTestEngine.calcScore responseList).score ∧
    (OutlierTestEngine.calcScore responseList).score ≤ 100 ∧
    (responseList.length = 0 →
      OutlierTestEngine.calcScore responseList = ⟨0, 0, 0⟩) ∧
    (responseList.length ≠ 0 →
      (OutlierTestEngine.calcScore responseList).score =
        ((Utils.jsRound (100 * ((OutlierTestEngine.calcScore responseList).correct : ℚ) /
          ((OutlierTestEngine.calcScore responseList).total : ℚ)) : ℤ) : ℚ)) := by
  unfold OutlierTestEngine.calcScore
  by_cases h : responseList.length = 0
  · simp [h]
  · rw [if_neg h]
    dsimp only
    set c := (responseList.filter (fun r => r.isCorrect)).length with hc
    set t := responseList.length with ht
    have hct : c ≤ t := List.length_filter_le _ _
    have ht0 : 0 < t := Nat.pos_of_ne_zero h
    have htq : (0 : ℚ) < (t : ℚ) := by exact_mod_cast ht0
    have harg0 : 0 ≤ (c : ℚ) / (t : ℚ) * 100 := by positivity
    have harg1 : (c : ℚ) / (t : ℚ) * 100 ≤ 100 := by
      have : (c : ℚ) / (t : ℚ) ≤ 1 := by
        rw [div_le_one htq]; exact_mod_cast hct
      linarith
    refine ⟨?_, ?_, ?_, ?_⟩
    · exact_mod_cast Utils.jsRound_nonneg harg0
    · exact_mod_cast Utils.jsRound_le_of_le_intCast (n := 100) (by exact_mod_cast harg1)
    · intro h0; exact absurd h0 h
    · intro _
      congr 1
      rw [mul_comm, mul_div_assoc]

/-- `TestEngine.bucketOfValue` is monotone in the severity metric
(larger metric, at least as severe a bucket). -/
theorem TestEngine.bucketOfValue_rank_mono {x y : ℚ} (h : x ≤ y) :
    severityRank (TestEngine.bucketOfValue x) ≤
      severityRank (TestEngine.bucketOfValue y) := by
  unfold TestEngine.bucketOfValue
  split_ifs <;> simp [severityRank] <;> linarith

/-- Claim C1 (counterexample): `TestEngine.estimateSeverity` applies
no inconclusive override — with a deutan score of 0 and a control
score of 40 (< 50%) the session is bucketed `strong`, not
`inconclusive`. -/
theorem claim1_severity_table_counterexample :
    (TestEngine.estimateSeverity 0 40).controlScore < 50 ∧
    (TestEngine.estimateSeverity 0 40).bucket = SeverityBucket.strong ∧
    (TestEngine.estimateSeverity 0 40).bucket ≠ SeverityBucket.inconclusive := by
  have hb : (TestEngine.estimateSeverity 0 40).bucket = SeverityBucket.strong := by
    norm_num [TestEngine.estimateSeverity, TestEngine.severityValue,
      TestEngine.adjustedScore, TestEngine.bucketOfValue]
  refine ⟨?_, hb, ?_⟩
  · norm_num [TestEngine.estimateSeverity]
  · rw [hb]; decide

/-- Claim C1 (amended): `OutlierTestEngine.calculateSeverity` returns
`inconclusive` exactly when the control score is below 50, and
otherwise a bucket whose attached numeric value falls in the spec
table band of that bucket; `TestEngine.estimateSeverity` buckets the
unrounded severity metric by the table thresholds
(≤ 15 / ≤ 35 / ≤ 60 / > 60) — which reproduce the spec table exactly
on integral metrics — but performs no inconclusive override. -/
theorem claim1_severity_table_amended (deutanStats controlStats : OutlierTestEngine.ScoreStats)
    (d c : ℚ) (v : ℤ) :
    (controlStats.score < 50 →
      (OutlierTestEngine.calculateSeverity deutanStats controlStats).bucket =
        SeverityBucket.inconclusive) ∧
    (¬controlStats.score < 50 →
      (OutlierTestEngine.calculateSeverity deutanStats controlStats).bucket ≠
        SeverityBucket.inconclusive ∧
      specSeverityTable
          (OutlierTestEngine.calculateSeverity deutanStats controlStats).value =
        (OutlierTestEngine.calculateSeverity deutanStats controlStats).bucket) ∧
    ((TestEngine.estimateSeverity d c).bucket =
      TestEngine.bucketOfValue (TestEngine.severityValue d c)) ∧
    (TestEngine.bucketOfValue (v : ℚ) = specSeverityTable (v : ℚ)) := by
  refine ⟨?_, ?_, ?_, ?_⟩
  · intro h
    unfold OutlierTestEngine.calculateSeverity
    rw [if_pos h]
  · intro h
    unfold OutlierTestEngine.calculateSeverity
    rw [if_neg h]
    dsimp only
    unfold OutlierTestEngine.severityBucketValue
    split_ifs <;> refine ⟨by decide, ?_⟩ <;> norm_num [specSeverityTable]
  · rfl
  · have h15 : ((v : ℚ) ≤ 15) ↔ v ≤ 15 := by exact_mod_cast Iff.rfl
    have h16 : ((16 : ℚ) ≤ (v : ℚ)) ↔ (16 : ℤ) ≤ v := by exact_mod_cast Iff.rfl
    have h35 : ((v : ℚ) ≤ 35) ↔ v ≤ 35 := by exact_mod_cast Iff.rfl
    have h36 : ((36 : ℚ) ≤ (v : ℚ)) ↔ (36 : ℤ) ≤ v := by exact_mod_cast Iff.rfl
    have h60 : ((v : ℚ) ≤ 60) ↔ v ≤ 60 := by exact_mod_cast Iff.rfl
    simp only [TestEngine.bucketOfValue, specSeverityTable, h15, h16, h35, h36, h60]
    split_ifs <;> first | rfl | omega

/-- Claim C1 (amended) at a concrete input: a control score of 33
(< 50) on six control trials is bucketed `inconclusive` by the
outlier engine, and an integral metric of 25 lands in the `mild`
band. -/
theorem claim1_severity_table_amended_witness :
    (OutlierTestEngine.calculateSeverity ⟨0, 10, 0⟩ ⟨2, 6, 33⟩).bucket =
      SeverityBucket.inconclusive ∧
    TestEngine.bucketOfValue ((25 : ℤ) : ℚ) = specSeverityTable ((25 : ℤ) : ℚ) := by
  constructor
  · exact (claim1_severity_table_amended ⟨0, 10, 0⟩ ⟨2, 6, 33⟩ 0 0 0).1 (by norm_num)
  · exact (claim1_severity_table_amended ⟨0, 10, 0⟩ ⟨2, 6, 33⟩ 0 0 25).2.2.2

/-- Claim C7: holding the control score fixed at 100%, the severity
bucket is antitone in the confusion-axis score under the rank order
none < mild < moderate < strong, in both severity estimators. -/
theorem claim7_severity_antitone (a b : ℚ) (hab : a ≤ b)
    (deutanA deutanB controlA controlB : OutlierTestEngine.ScoreStats)
    (hda : deutanA.score = a) (hdb : deutanB.score = b)
    (hca : controlA.score = 100) (hcb : controlB.score = 100) :
    severityRank (TestEngine.estimateSeverity b 100).bucket ≤
      severityRank (TestEngine.estimateSeverity a 100).bucket ∧
    severityRank (OutlierTestEngine.calculateSeverity deutanB controlB).bucket ≤
      severityRank (OutlierTestEngine.calculateSeverity deutanA controlA).bucket := by
  constructor
  · have hA : TestEngine.severityValue a 100 = 100 - a := by
      unfold TestEngine.severityValue TestEngine.adjustedScore
      norm_num
    have hB : TestEngine.severityValue b 100 = 100 - b := by
      unfold TestEngine.severityValue TestEngine.adjustedScore
      norm_num
    show severityRank (TestEngine.bucketOfValue (TestEngine.severityValue b 100)) ≤
      severityRank (TestEngine.bucketOfValue (TestEngine.severityValue a 100))
    rw [hA, hB]
    exact TestEngine.bucketOfValue_rank_mono (by linarith)
  · unfold OutlierTestEngine.calculateSeverity
    rw [hca, hcb, hda, hdb]
    norm_num
    unfold OutlierTestEngine.severityBucketValue
    split_ifs <;> simp only [severityRank] <;>
      simp only [not_and_or, not_or, not_le, not_lt, ge_iff_le] at * <;>
      casesm* _ ∨ _, _ ∧ _ <;> linarith

/-- `completeRound` does not touch the round counters. -/
theorem TuningEngine.completeRound_currentRound (st : TuningEngine.TunerState)
    (c t : ℕ) : (TuningEngine.completeRound st c t).currentRound = st.currentRound := rfl

theorem TuningEngine.completeRound_maxRounds (st : TuningEngine.TunerState)
    (c t : ℕ) : (TuningEngine.completeRound st c t).maxRounds = st.maxRounds := rfl

/-- `adjustParameters` only replaces the current parameter record. -/
theorem TuningEngine.adjustParameters_currentRound
    (pick : List ColorFilter.FilterParams → ColorFilter.FilterParams)
    (rnd : ColorFilter.ParamKey → ℚ) (st : TuningEngine.TunerState) :
    (TuningEngine.adjustParameters pick rnd st).currentRound = st.currentRound := rfl

theorem TuningEngine.adjustParameters_maxRounds
    (pick : List ColorFilter.FilterParams → ColorFilter.FilterParams)
    (rnd : ColorFilter.ParamKey → ℚ) (st : TuningEngine.TunerState) :
    (TuningEngine.adjustParameters pick rnd st).maxRounds = st.maxRounds := rfl

/-- The three stopping conditions of `TuningEngine.shouldContinue`. -/
theorem TuningEngine.shouldContinue_eq_false_iff (cfg : TuningEngine.TunerConfig)
    (st : TuningEngine.TunerState) :
    TuningEngine.shouldContinue cfg st = false ↔
      (st.currentRound ≥ st.maxRounds ∨ st.bestScore ≥ 100 ∨
        st.noImprovementCount ≥ cfg.maxNoImprovement) := by
  unfold TuningEngine.shouldContinue
  split_ifs with h1 h2 h3
  · simpa using Or.inl h1
  · simpa using Or.inr (Or.inl h2)
  · simpa using Or.inr (Or.inr h3)
  · simp only [Bool.true_eq_false, false_iff]
    push_neg
    exact ⟨lt_of_not_ge h1, lt_of_not_ge h2, lt_of_not_ge h3⟩

/-- `shouldContinue = true` keeps the round counter strictly below the
budget. -/
theorem TuningEngine.shouldContinue_round_lt {cfg : TuningEngine.TunerConfig}
    {st : TuningEngine.TunerState}
    (h : TuningEngine.shouldContinue cfg st = true) :
    st.currentRound < st.maxRounds := by
  by_contra hc
  unfold TuningEngine.shouldContinue at h
  rw [if_pos (not_lt.mp hc)] at h
  exact Bool.false_ne_true h

/-- Fueled induction principle for `tuningLoop`: the final round
counter stays within the budget and the loop only stops with
`shouldContinue` false. -/
theorem TuningEngine.tuningLoop_bounded (cfg : TuningEngine.TunerConfig)
    (outcome : ℕ → ℕ × ℕ)
    (pick : List ColorFilter.FilterParams → ColorFilter.FilterParams)
    (rnd : ColorFilter.ParamKey → ℚ) :
    ∀ (n : ℕ) (st : TuningEngine.TunerState),
      st.maxRounds - st.currentRound ≤ n →
      st.currentRound < st.maxRounds →
      (TuningEngine.tuningLoop cfg outcome pick rnd st).currentRound ≤ st.maxRounds ∧
      TuningEngine.shouldContinue cfg
        (TuningEngine.tuningLoop cfg outcome pick rnd st) = false := by
  intro n
  induction n with
  | zero => intro st hn hlt; omega
  | succ n ih =>
    intro st hn hlt
    rw [TuningEngine.tuningLoop]
    dsimp only
    split_ifs with hc
    · have hlt2 : st.currentRound + 1 < st.maxRounds :=
        TuningEngine.shouldContinue_round_lt hc
      exact ih _ (by change st.maxRounds - (st.currentRound + 1) ≤ n; omega) hlt2
    · refine ⟨?_, by simpa using hc⟩
      change st.currentRound + 1 ≤ st.maxRounds
      omega

/-- Claim C3: the adaptive tuner performs at most `maxRounds` rounds —
starting below the budget, the final round counter never exceeds it —
and it stops exactly when the counter reaches `maxRounds`, or the best
score reaches 100, or the consecutive-non-improving-round counter
reaches `maxNoImprovement`; the defaults are R = 5 and K = 2. -/
theorem claim3_tuner_termination (cfg : TuningEngine.TunerConfig)
    (outcome : ℕ → ℕ × ℕ)
    (pick : List ColorFilter.FilterParams → ColorFilter.FilterParams)
    (rnd : ColorFilter.ParamKey → ℚ) (st : TuningEngine.TunerState)
    (hlt : st.currentRound < st.maxRounds) :
    (TuningEngine.tuningLoop cfg outcome pick rnd st).currentRound ≤ st.maxRounds ∧
    TuningEngine.shouldContinue cfg
      (TuningEngine.tuningLoop cfg outcome pick rnd st) = false ∧
    (∀ s : TuningEngine.TunerState,
      TuningEngine.shouldContinue cfg s = false ↔
        (s.currentRound ≥ s.maxRounds ∨ s.bestScore ≥ 100 ∨
          s.noImprovementCount ≥ cfg.maxNoImprovement)) ∧
    TuningEngine.config.maxRounds = 5 ∧
    TuningEngine.config.maxNoImprovement = 2 ∧
    (∀ sev base, (TuningEngine.init cfg sev base).currentRound = 0 ∧
      (TuningEngine.init cfg sev base).maxRounds = cfg.maxRounds) := by
  have h := TuningEngine.tuningLoop_bounded cfg outcome pick rnd
    (st.maxRounds - st.currentRound) st le_rfl hlt
  exact ⟨h.1, h.2, fun s => TuningEngine.shouldContinue_eq_false_iff cfg s,
    rfl, rfl, fun sev base => ⟨rfl, rfl⟩⟩

/-- Claim C3 at a concrete input: a fresh default-config session with
constant round outcomes finishes within 5 rounds with the stop
condition established. -/
theorem claim3_tuner_termination_witness :
    (TuningEngine.tuningLoop TuningEngine.config (fun _ => (2, 5))
        (fun _ => ColorFilter.defaults) (fun _ => 1/2)
        (TuningEngine.init TuningEngine.config "moderate" 50)).currentRound ≤
      (TuningEngine.init TuningEngine.config "moderate" 50).maxRounds :=
  (claim3_tuner_termination TuningEngine.config (fun _ => (2, 5))
    (fun _ => ColorFilter.defaults) (fun _ => 1/2)
    (TuningEngine.init TuningEngine.config "moderate" 50)
    (by norm_num [TuningEngine.init, TuningEngine.config])).1

/-- Claim C7 at a concrete input: lowering the confusion score from
60 to 30 moves the bucket weakly towards the severe end. -/
theorem claim7_severity_antitone_witness :
    severityRank (TestEngine.estimateSeverity 60 100).bucket ≤
      severityRank (TestEngine.estimateSeverity 30 100).bucket ∧
    severityRank
        (OutlierTestEngine.calculateSeverity ⟨6, 10, 60⟩ ⟨6, 6, 100⟩).bucket ≤
      severityRank
        (OutlierTestEngine.calculateSeverity ⟨3, 10, 30⟩ ⟨6, 6, 100⟩).bucket :=
  claim7_severity_antitone 30 60 (by norm_num) ⟨3, 10, 30⟩ ⟨6, 10, 60⟩
    ⟨6, 6, 100⟩ ⟨6, 6, 100⟩ rfl rfl rfl rfl

/-- Writing a parameter and reading it back. -/
theorem ColorFilter.getParam_setParam_same (p : ColorFilter.FilterParams)
    (k : ColorFilter.ParamKey) (v : ℚ) :
    ColorFilter.getParam (ColorFilter.setParam p k v) k = v := by
  cases k <;> rfl

/-- Writing one parameter leaves the others unchanged. -/
theorem ColorFilter.getParam_setParam_ne (p : ColorFilter.FilterParams)
    (k k1 : ColorFilter.ParamKey) (v : ℚ) (h : k ≠ k1) :
    ColorFilter.getParam (ColorFilter.setParam p k1 v) k =
      ColorFilter.getParam p k := by
  cases k <;> cases k1 <;> first | rfl | exact absurd rfl h

/-- A normalization fold over keys not containing `k` leaves parameter
`k` untouched. -/
theorem ColorFilter.foldl_normalizeStep_not_mem (input : ColorFilter.JsObject)
    (keys : List ColorFilter.ParamKey) (acc : ColorFilter.FilterParams)
    (k : ColorFilter.ParamKey) (hk : k ∉ keys) :
    ColorFilter.getParam (keys.foldl (ColorFilter.normalizeStep input) acc) k =
      ColorFilter.getParam acc k := by
  induction keys generalizing acc with
  | nil => rfl
  | cons k1 keys ih =>
    have hne : k ≠ k1 := fun h => hk (h ▸ List.mem_cons_self k1 keys)
    have hk2 : k ∉ keys := fun h => hk (List.mem_cons_of_mem k1 h)
    rw [List.foldl_cons, ih _ hk2]
    unfold ColorFilter.normalizeStep
    cases input.lookup (ColorFilter.keyName k1) with
    | none => rfl
    | some v => exact ColorFilter.getParam_setParam_ne acc k k1 _ hne

/-- Value of parameter `k` after a normalization fold over a
duplicate-free key list containing `k`: the clamped input value when
present, the accumulator value otherwise. -/
theorem ColorFilter.foldl_normalizeStep_get (input : ColorFilter.JsObject)
    (keys : List ColorFilter.ParamKey) (acc : ColorFilter.FilterParams)
    (k : ColorFilter.ParamKey) (hk : k ∈ keys) (hnd : keys.Nodup) :
    ColorFilter.getParam (keys.foldl (ColorFilter.normalizeStep input) acc) k =
      match input.lookup (ColorFilter.keyName k) with
      | some v =>
          Utils.clamp v (ColorFilter.paramRanges k).min (ColorFilter.paramRanges k).max
      | none => ColorFilter.getParam acc k := by
  induction keys generalizing acc with
  | nil => cases hk
  | cons k1 keys ih =>
    rw [List.foldl_cons]
    rcases List.mem_cons.mp hk with heq | hmem
    · subst heq
      have hk2 : k ∉ keys := (List.nodup_cons.mp hnd).1
      rw [ColorFilter.foldl_normalizeStep_not_mem input keys _ k hk2]
      unfold ColorFilter.normalizeStep
      cases input.lookup (ColorFilter.keyName k) with
      | none => rfl
      | some v => exact ColorFilter.getParam_setParam_same acc k _
    · have hnd2 : keys.Nodup := (List.nodup_cons.mp hnd).2
      have hne : k ≠ k1 := by
        rintro rfl
        exact (List.nodup_cons.mp hnd).1 hmem
      rw [ih _ hmem hnd2]
      unfold ColorFilter.normalizeStep
      cases input.lookup (ColorFilter.keyName k1) with
      | none => rfl
      | some v => rw [ColorFilter.getParam_setParam_ne acc k k1 _ hne]

/-- The declared key list has no duplicates. -/
theorem ColorFilter.paramKeys_nodup : ColorFilter.paramKeys.Nodup := by decide

/-- Characterization of `normalizeParams`: present properties are
clamped into range, missing ones come from `defaults`. -/
theorem ColorFilter.normalizeParams_get (input : ColorFilter.JsObject)
    (k : ColorFilter.ParamKey) (hk : k ∈ ColorFilter.paramKeys) :
    ColorFilter.getParam (ColorFilter.normalizeParams input) k =
      match input.lookup (ColorFilter.keyName k) with
      | some v =>
          Utils.clamp v (ColorFilter.paramRanges k).min (ColorFilter.paramRanges k).max
      | none => ColorFilter.getParam ColorFilter.defaults k :=
  ColorFilter.foldl_normalizeStep_get input ColorFilter.paramKeys
    ColorFilter.defaults k hk ColorFilter.paramKeys_nodup

/-- Every parameter of the declared table is a member of the key
list. -/
theorem ColorFilter.mem_paramKeys (k : ColorFilter.ParamKey) :
    k ∈ ColorFilter.paramKeys := by cases k <;> decide

/-- Each declared range is nonempty and contains its default. -/
theorem ColorFilter.default_mem_range (k : ColorFilter.ParamKey) :
    (ColorFilter.paramRanges k).min ≤ ColorFilter.getParam ColorFilter.defaults k ∧
      ColorFilter.getParam ColorFilter.defaults k ≤ (ColorFilter.paramRanges k).max ∧
      (ColorFilter.paramRanges k).min ≤ (ColorFilter.paramRanges k).max := by
  cases k <;> norm_num [ColorFilter.paramRanges, ColorFilter.defaults, ColorFilter.getParam]

/-- `normalizeParams` always lands inside the declared ranges. -/
theorem ColorFilter.normalizeParams_inDeclaredRanges (input : ColorFilter.JsObject) :
    ColorFilter.inDeclaredRanges (ColorFilter.normalizeParams input) := by
  intro k hk
  rw [ColorFilter.normalizeParams_get input k hk]
  cases input.lookup (ColorFilter.keyName k) with
  | none =>
    exact ⟨(ColorFilter.default_mem_range k).1, (ColorFilter.default_mem_range k).2.1⟩
  | some v =>
    exact Utils.clamp_mem (ColorFilter.default_mem_range k).2.2

/-- The parameter record chosen by `adjustParameters` for the next
round is always normalized, hence in range. -/
theorem TuningEngine.nextParams_inDeclaredRanges
    (pick : List ColorFilter.FilterParams → ColorFilter.FilterParams)
    (rnd : ColorFilter.ParamKey → ℚ) (st : TuningEngine.TunerState) :
    ColorFilter.inDeclaredRanges (TuningEngine.nextParams pick rnd st) :=
  ColorFilter.normalizeParams_inDeclaredRanges _

/-- `completeRound` appends exactly one history entry, carrying the
parameters the round was played with. -/
theorem TuningEngine.completeRound_history (st : TuningEngine.TunerState)
    (c t : ℕ) :
    (TuningEngine.completeRound st c t).history =
      st.history ++
        [⟨st.currentRound, st.currentParams, (Utils.percentage c t : ℚ), c, t⟩] := rfl

/-- `adjustParameters` leaves the history untouched. -/
theorem TuningEngine.adjustParameters_history
    (pick : List ColorFilter.FilterParams → ColorFilter.FilterParams)
    (rnd : ColorFilter.ParamKey → ℚ) (st : TuningEngine.TunerState) :
    (TuningEngine.adjustParameters pick rnd st).history = st.history := rfl

/-- History invariant of the tuning loop: if the current parameters
and all recorded parameters are in range, every history entry of the
final state is in range. -/
theorem TuningEngine.tuningLoop_history_inRange (cfg : TuningEngine.TunerConfig)
    (outcome : ℕ → ℕ × ℕ)
    (pick : List ColorFilter.FilterParams → ColorFilter.FilterParams)
    (rnd : ColorFilter.ParamKey → ℚ) :
    ∀ (n : ℕ) (st : TuningEngine.TunerState),
      st.maxRounds - st.currentRound ≤ n →
      ColorFilter.inDeclaredRanges st.currentParams →
      (∀ rr ∈ st.history, ColorFilter.inDeclaredRanges rr.params) →
      ∀ rr ∈ (TuningEngine.tuningLoop cfg outcome pick rnd st).history,
        ColorFilter.inDeclaredRanges rr.params := by
  intro n
  induction n with
  | zero =>
    intro st hn hcur hhist
    rw [TuningEngine.tuningLoop]
    dsimp only
    split_ifs with hc
    · have h2 : st.currentRound + 1 < st.maxRounds :=
        TuningEngine.shouldContinue_round_lt hc
      omega
    · rw [TuningEngine.completeRound_history]
      intro rr hrr
      rcases List.mem_append.mp hrr with h | h
      · exact hhist rr h
      · rcases List.mem_singleton.mp h with rfl
        exact hcur
  | succ n ih =>
    intro st hn hcur hhist
    rw [TuningEngine.tuningLoop]
    dsimp only
    split_ifs with hc
    · have hlt2 : st.currentRound + 1 < st.maxRounds :=
        TuningEngine.shouldContinue_round_lt hc
      apply ih (TuningEngine.adjustParameters pick rnd _)
      · change st.maxRounds - (st.currentRound + 1) ≤ n
        omega
      · exact TuningEngine.nextParams_inDeclaredRanges pick rnd _
      · rw [TuningEngine.adjustParameters_history, TuningEngine.completeRound_history]
        intro rr hrr
        rcases List.mem_append.mp hrr with h | h
        · exact hhist rr h
        · rcases List.mem_singleton.mp h with rfl
          exact hcur
    · rw [TuningEngine.completeRound_history]
      intro rr hrr
      rcases List.mem_append.mp hrr with h | h
      · exact hhist rr h
      · rcases List.mem_singleton.mp h with rfl
        exact hcur

/-- The severity presets used as initial tuner parameters are in
range. -/
theorem ColorFilter.getInitialParams_inDeclaredRanges (severity : String) :
    ColorFilter.inDeclaredRanges (ColorFilter.getInitialParams severity) := by
  unfold ColorFilter.getInitialParams
  split_ifs <;>
    (intro k _; cases k <;>
      norm_num [ColorFilter.getParam, ColorFilter.paramRanges])

/-- Claim C9: `normalizeParams` fills exactly the five tunable
parameters — present properties clamped into their declared ranges,
missing ones from the defaults, and properties under any other name
ignored — and, because the tuner normalizes every adjusted parameter
set (and starts from an in-range preset), every parameter record used
in a tuning round lies within the declared ranges. -/
theorem claim9_normalize_params (input input1 input2 : ColorFilter.JsObject)
    (k : ColorFilter.ParamKey)
    (hsame : ∀ k1 ∈ ColorFilter.paramKeys,
      input1.lookup (ColorFilter.keyName k1) = input2.lookup (ColorFilter.keyName k1))
    (cfg : TuningEngine.TunerConfig) (outcome : ℕ → ℕ × ℕ)
    (pick : List ColorFilter.FilterParams → ColorFilter.FilterParams)
    (rnd : ColorFilter.ParamKey → ℚ) (sev : String) (base : ℚ) :
    ((ColorFilter.paramRanges k).min ≤
        ColorFilter.getParam (ColorFilter.normalizeParams input) k ∧
      ColorFilter.getParam (ColorFilter.normalizeParams input) k ≤
        (ColorFilter.paramRanges k).max) ∧
    (∀ v, input.lookup (ColorFilter.keyName k) = some v →
      ColorFilter.getParam (ColorFilter.normalizeParams input) k =
        Utils.clamp v (ColorFilter.paramRanges k).min (ColorFilter.paramRanges k).max) ∧
    (input.lookup (ColorFilter.keyName k) = Option.none →
      ColorFilter.getParam (ColorFilter.normalizeParams input) k =
        ColorFilter.getParam ColorFilter.defaults k) ∧
    ColorFilter.normalizeParams input1 = ColorFilter.normalizeParams input2 ∧
    (∀ rr ∈ (TuningEngine.tuningLoop cfg outcome pick rnd
        { TuningEngine.init cfg sev base with isRunning := true }).history,
      ColorFilter.inDeclaredRanges rr.params) := by
  have hmem := ColorFilter.mem_paramKeys k
  refine ⟨ColorFilter.normalizeParams_inDeclaredRanges input k hmem, ?_, ?_, ?_, ?_⟩
  · intro v hv
    rw [ColorFilter.normalizeParams_get input k hmem, hv]
  · intro hv
    rw [ColorFilter.normalizeParams_get input k hmem, hv]
  · have h1 : ∀ k1 ∈ ColorFilter.paramKeys,
        ColorFilter.getParam (ColorFilter.normalizeParams input1) k1 =
          ColorFilter.getParam (ColorFilter.normalizeParams input2) k1 := by
      intro k1 hk1
      rw [ColorFilter.normalizeParams_get input1 k1 hk1,
          ColorFilter.normalizeParams_get input2 k1 hk1, hsame k1 hk1]
    cases hp : ColorFilter.normalizeParams input1
    cases hq : ColorFilter.normalizeParams input2
    have e1 := h1 .hueShift (by decide)
    have e2 := h1 .intensity (by decide)
    have e3 := h1 .saturationBoost (by decide)
    have e4 := h1 .brightness (by decide)
    have e5 := h1 .contrast (by decide)
    rw [hp, hq] at e1 e2 e3 e4 e5
    simp only [ColorFilter.getParam] at e1 e2 e3 e4 e5
    simp [e1, e2, e3, e4, e5]
  · apply TuningEngine.tuningLoop_history_inRange cfg outcome pick rnd
      (cfg.maxRounds - 0) _ le_rfl
    · exact ColorFilter.getInitialParams_inDeclaredRanges sev
    · intro rr hrr
      cases hrr

/-- Claim C9 at a concrete input: an object with one in-range
property, one out-of-range property and one unknown property
normalizes to the five declared parameters with the out-of-range value
clamped. -/
theorem claim9_normalize_params_witness :
    (ColorFilter.paramRanges ColorFilter.ParamKey.hueShift).min ≤
      ColorFilter.getParam
        (ColorFilter.normalizeParams
          [("hueShift", 500), ("saturationBoost", 10), ("unknownKey", 3)])
        ColorFilter.ParamKey.hueShift ∧
    ColorFilter.getParam
        (ColorFilter.normalizeParams
          [("hueShift", 500), ("saturationBoost", 10), ("unknownKey", 3)])
        ColorFilter.ParamKey.hueShift ≤
      (ColorFilter.paramRanges ColorFilter.ParamKey.hueShift).max :=
  (claim9_normalize_params
    [("hueShift", 500), ("saturationBoost", 10), ("unknownKey", 3)] [] []
    ColorFilter.ParamKey.hueShift (fun _ _ => rfl) TuningEngine.config
    (fun _ => (0, 0)) (fun _ => ColorFilter.defaults) (fun _ => 0) "none" 0).1

/-- One step of the neighbour fold appends that parameter's
candidates. -/
theorem ColorFilter.neighborsStep_eq (params : ColorFilter.FilterParams)
    (m : ℚ) (acc : List ColorFilter.FilterParams) (k : ColorFilter.ParamKey) :
    ColorFilter.neighborsStep params m acc k =
      acc ++ ColorFilter.neighborsOfKey params m k := by
  unfold ColorFilter.neighborsStep ColorFilter.neighborsOfKey
  dsimp only
  split_ifs <;> simp

/-- The neighbour fold accumulates the per-key candidate lists. -/
theorem ColorFilter.foldl_neighborsStep (params : ColorFilter.FilterParams)
    (m : ℚ) (keys : List ColorFilter.ParamKey)
    (acc : List ColorFilter.FilterParams) :
    keys.foldl (ColorFilter.neighborsStep params m) acc =
      acc ++ keys.flatMap (ColorFilter.neighborsOfKey params m) := by
  induction keys generalizing acc with
  | nil => simp
  | cons k keys ih =>
    rw [List.foldl_cons, ih, ColorFilter.neighborsStep_eq, List.flatMap_cons,
      List.append_assoc]

/-- What `generateNeighbors` produces: the concatenation, over the
declared parameters in order, of the (guarded) lower and upper
variants. -/
theorem ColorFilter.generateNeighbors_eq (params : ColorFilter.FilterParams)
    (m : ℚ) :
    ColorFilter.generateNeighbors params m =
      ColorFilter.paramKeys.flatMap (ColorFilter.neighborsOfKey params m) := by
  unfold ColorFilter.generateNeighbors
  rw [ColorFilter.foldl_neighborsStep]
  rfl

/-- Two-decimal rounding is monotone. -/
theorem ColorFilter.round2_mono {x y : ℚ} (h : x ≤ y) :
    ColorFilter.round2 x ≤ ColorFilter.round2 y := by
  have h1 : Utils.jsRound (x * 100) ≤ Utils.jsRound (y * 100) :=
    Utils.jsRound_mono (by linarith)
  have h2 : ((Utils.jsRound (x * 100) : ℚ)) ≤ ((Utils.jsRound (y * 100) : ℚ)) := by
    exact_mod_cast h1
  unfold ColorFilter.round2
  linarith

/-- The declared bounds are two-decimal fixed points. -/
theorem ColorFilter.round2_min_eq (k : ColorFilter.ParamKey) :
    ColorFilter.round2 (ColorFilter.paramRanges k).min =
      (ColorFilter.paramRanges k).min := by
  cases k <;> norm_num [ColorFilter.round2, ColorFilter.paramRanges, Utils.jsRound]

theorem ColorFilter.round2_max_eq (k : ColorFilter.ParamKey) :
    ColorFilter.round2 (ColorFilter.paramRanges k).max =
      (ColorFilter.paramRanges k).max := by
  cases k <;> norm_num [ColorFilter.round2, ColorFilter.paramRanges, Utils.jsRound]

/-- All declared steps are nonnegative. -/
theorem ColorFilter.step_nonneg (k : ColorFilter.ParamKey) :
    0 ≤ (ColorFilter.paramRanges k).step := by
  cases k <;> norm_num [ColorFilter.paramRanges]

/-- Claim C6 (counterexample): the emitted neighbour values are
rounded to two decimals, so for `hueShift = 0.001` the list contains
no variant with `hueShift` set to the exact lower value
`0.001 - 5·1 = -4.999`, although that value is within range — the
claim's unrounded variant is absent. -/
theorem claim6_neighbors_counterexample :
    ((⟨1/1000, 1/2, 0, 0, 0⟩ : ColorFilter.FilterParams).hueShift - 5 * 1 ≥
      (ColorFilter.paramRanges ColorFilter.ParamKey.hueShift).min) ∧
    ({ (⟨1/1000, 1/2, 0, 0, 0⟩ : ColorFilter.FilterParams) with
        hueShift := 1/1000 - 5 * 1 } ∉
      ColorFilter.generateNeighbors ⟨1/1000, 1/2, 0, 0, 0⟩ 1) := by
  constructor
  · norm_num [ColorFilter.paramRanges]
  · rw [ColorFilter.generateNeighbors_eq]
    norm_num [ColorFilter.paramKeys, ColorFilter.neighborsOfKey,
      ColorFilter.paramRanges, ColorFilter.getParam, ColorFilter.setParam,
      ColorFilter.round2, Utils.jsRound, List.mem_append,
      ColorFilter.FilterParams.mk.injEq]

/-- Claim C6 (amended): `neighbors(params, m)` is exactly the
concatenation, over the five declared parameters in order, of the
variant at `round2(value - step·m)` when the unrounded lower value is
≥ min and the variant at `round2(value + step·m)` when the unrounded
upper value is ≤ max (all other parameters held fixed); hence at most
2 × 5 candidates; for in-range parameters and m ≥ 0 no candidate
leaves the declared ranges; and for `hueShift = 0`, `m = 1` the list
contains the variants with `hueShift` 5 and −5. -/
theorem claim6_neighbors_amended (params : ColorFilter.FilterParams) (m : ℚ)
    (hin : ColorFilter.inDeclaredRanges params) (hm : 0 ≤ m) :
    ColorFilter.generateNeighbors params m =
      ColorFilter.paramKeys.flatMap (ColorFilter.neighborsOfKey params m) ∧
    (ColorFilter.generateNeighbors params m).length ≤
      2 * ColorFilter.paramKeys.length ∧
    (∀ q ∈ ColorFilter.generateNeighbors params m,
      ColorFilter.inDeclaredRanges q) ∧
    (params.hueShift = 0 → m = 1 →
      ({params with hueShift := 5} ∈ ColorFilter.generateNeighbors params m ∧
       {params with hueShift := -5} ∈ ColorFilter.generateNeighbors params m)) := by
  have hlen : ∀ k, (ColorFilter.neighborsOfKey params m k).length ≤ 2 := by
    intro k
    unfold ColorFilter.neighborsOfKey
    dsimp only
    split_ifs <;> simp
  refine ⟨ColorFilter.generateNeighbors_eq params m, ?_, ?_, ?_⟩
  · rw [ColorFilter.generateNeighbors_eq]
    have h1 := hlen .hueShift
    have h2 := hlen .intensity
    have h3 := hlen .saturationBoost
    have h4 := hlen .brightness
    have h5 := hlen .contrast
    simp only [ColorFilter.paramKeys, List.flatMap_cons, List.flatMap_nil,
      List.append_nil, List.length_append, List.length_cons, List.length_nil]
    omega
  · intro q hq
    rw [ColorFilter.generateNeighbors_eq] at hq
    rcases List.mem_flatMap.mp hq with ⟨k, _, hqk⟩
    have hstep : 0 ≤ (ColorFilter.paramRanges k).step * m :=
      mul_nonneg (ColorFilter.step_nonneg k) hm
    have hkin := hin k (ColorFilter.mem_paramKeys k)
    unfold ColorFilter.neighborsOfKey at hqk
    have hvar : ∀ w, (ColorFilter.paramRanges k).min ≤ w →
        w ≤ (ColorFilter.paramRanges k).max →
        ColorFilter.inDeclaredRanges (ColorFilter.setParam params k w) := by
      intro w h1 h2 k1 hk1
      by_cases hkk : k1 = k
      · subst hkk
        rw [ColorFilter.getParam_setParam_same]
        exact ⟨h1, h2⟩
      · rw [ColorFilter.getParam_setParam_ne _ _ _ _ hkk]
        exact hin k1 hk1
    rcases List.mem_append.mp hqk with h | h
    · rcases (by simpa using h :
        (ColorFilter.getParam params k - (ColorFilter.paramRanges k).step * m ≥
          (ColorFilter.paramRanges k).min) ∧
        q = ColorFilter.setParam params k
          (ColorFilter.round2
            (ColorFilter.getParam params k -
              (ColorFilter.paramRanges k).step * m))) with ⟨hg, rfl⟩
      apply hvar
      · calc (ColorFilter.paramRanges k).min
            = ColorFilter.round2 (ColorFilter.paramRanges k).min :=
              (ColorFilter.round2_min_eq k).symm
          _ ≤ _ := ColorFilter.round2_mono hg
      · calc ColorFilter.round2
              (ColorFilter.getParam params k - (ColorFilter.paramRanges k).step * m)
            ≤ ColorFilter.round2 (ColorFilter.paramRanges k).max :=
              ColorFilter.round2_mono (by linarith [hkin.2])
          _ = (ColorFilter.paramRanges k).max := ColorFilter.round2_max_eq k
    · rcases (by simpa using h :
        (ColorFilter.getParam params k + (ColorFilter.paramRanges k).step * m ≤
          (ColorFilter.paramRanges k).max) ∧
        q = ColorFilter.setParam params k
          (ColorFilter.round2
            (ColorFilter.getParam params k +
              (ColorFilter.paramRanges k).step * m))) with ⟨hg, rfl⟩
      apply hvar
      · calc (ColorFilter.paramRanges k).min
            = ColorFilter.round2 (ColorFilter.paramRanges k).min :=
              (ColorFilter.round2_min_eq k).symm
          _ ≤ _ := ColorFilter.round2_mono (by linarith [hkin.1])
      · calc ColorFilter.round2
              (ColorFilter.getParam params k + (ColorFilter.paramRanges k).step * m)
            ≤ ColorFilter.round2 (ColorFilter.paramRanges k).max :=
              ColorFilter.round2_mono hg
          _ = (ColorFilter.paramRanges k).max := ColorFilter.round2_max_eq k
  · intro h0 h1
    subst h1
    rw [ColorFilter.generateNeighbors_eq]
    constructor
    · apply List.mem_flatMap.mpr
      refine ⟨.hueShift, by decide, ?_⟩
      unfold ColorFilter.neighborsOfKey
      have : ColorFilter.getParam params ColorFilter.ParamKey.hueShift = 0 := h0
      rw [this]
      norm_num [ColorFilter.paramRanges, ColorFilter.round2, Utils.jsRound,
        ColorFilter.setParam]
    · apply List.mem_flatMap.mpr
      refine ⟨.hueShift, by decide, ?_⟩
      unfold ColorFilter.neighborsOfKey
      have : ColorFilter.getParam params ColorFilter.ParamKey.hueShift = 0 := h0
      rw [this]
      norm_num [ColorFilter.paramRanges, ColorFilter.round2, Utils.jsRound,
        ColorFilter.setParam]

/-- Claim C6 (amended) at a concrete input: the default parameter
record (which is in range) with multiplier 1 — a record with
`hueShift = 0` — yields the ±5 hue-shift variants. -/
theorem claim6_neighbors_amended_witness :
    {ColorFilter.defaults with hueShift := (5 : ℚ)} ∈
      ColorFilter.generateNeighbors ColorFilter.defaults 1 ∧
    {ColorFilter.defaults with hueShift := (-5 : ℚ)} ∈
      ColorFilter.generateNeighbors ColorFilter.defaults 1 :=
  (claim6_neighbors_amended ColorFilter.defaults 1
    (by intro k _; cases k <;>
      norm_num [ColorFilter.getParam, ColorFilter.paramRanges, ColorFilter.defaults])
    (by norm_num)).2.2.2 rfl rfl

/-- Claim C8 (counterexample): recording a response outside an active
trial raises nothing.  With the plate list exhausted, `recordResponse`
returns with the state untouched (silently ignored); with the session
initialized but never started (`isRunning = false`), the response is
appended to the log (folded into scoring).  No InvalidState failure
exists on either path. -/
theorem claim8_recordresponse_counterexample :
    (TestEngine.recordResponse
        { isRunning := false, currentPlateIndex := 1,
          plates := [⟨1, 400, 14, 28, "deutanConfusion", "medium", ⟨[], []⟩,
            ⟨"number", "3"⟩, Option.none, []⟩],
          responses := [⟨0, "deutanConfusion", "number", "3", some "3", true, 1,
            "medium", 1⟩],
          startTime := 0, plateStartTime := 0, filterParams := Option.none,
          mode := "baseline" } (some "3") 5 =
      { isRunning := false, currentPlateIndex := 1,
        plates := [⟨1, 400, 14, 28, "deutanConfusion", "medium", ⟨[], []⟩,
          ⟨"number", "3"⟩, Option.none, []⟩],
        responses := [⟨0, "deutanConfusion", "number", "3", some "3", true, 1,
          "medium", 1⟩],
        startTime := 0, plateStartTime := 0, filterParams := Option.none,
        mode := "baseline" }) ∧
    (TestEngine.recordResponse
        { isRunning := false, currentPlateIndex := 0,
          plates := [⟨1, 400, 14, 28, "deutanConfusion", "medium", ⟨[], []⟩,
            ⟨"number", "3"⟩, Option.none, []⟩],
          responses := [], startTime := 0, plateStartTime := 0,
          filterParams := Option.none, mode := "baseline" }
        (some "3") 5).responses.length = 1 := by
  constructor
  · rfl
  · rfl

/-- Claim C8 (amended): `recordResponse` called with no current plate
(before initialization or after the plate list is exhausted) returns
with the state unchanged and signals no error, in both `TestEngine`
and `TuningEngine`; called with a current plate it appends the
response record — regardless of whether the session was started —
rather than failing. -/
theorem claim8_recordresponse_amended (st : TestEngine.TEState)
    (response : Option String) (now : ℚ) (tst : TuningEngine.PlateRunState)
    (plate : MosaicGenerator.Plate)
    (hplate : st.plates.get? st.currentPlateIndex = some plate)
    (hdone : tst.plateIndex ≥ tst.currentPlates.length) :
    (∀ st1 : TestEngine.TEState,
      st1.currentPlateIndex ≥ st1.plates.length →
        TestEngine.recordResponse st1 response now = st1) ∧
    (TestEngine.recordResponse st response now).responses =
      st.responses ++
        [{ plateIndex := st.currentPlateIndex, plateType := plate.type,
           targetType := plate.target.type, targetValue := plate.target.value,
           userResponse := response,
           isCorrect := TestEngine.checkAnswer response plate,
           responseTime := now - st.plateStartTime,
           difficulty := plate.difficulty, seed := plate.seed }] ∧
    TuningEngine.recordResponse tst response now = (tst, false) := by
  refine ⟨?_, ?_, ?_⟩
  · intro st1 h1
    unfold TestEngine.recordResponse
    have : TestEngine.getCurrentPlate st1 = Option.none := by
      unfold TestEngine.getCurrentPlate
      exact List.get?_eq_none.mpr h1
    rw [this]
  · unfold TestEngine.recordResponse
    have : TestEngine.getCurrentPlate st = some plate := hplate
    rw [this]
    dsimp only
    split_ifs <;> rfl
  · unfold TuningEngine.recordResponse
    have : TuningEngine.getCurrentPlate tst = Option.none := by
      unfold TuningEngine.getCurrentPlate
      exact List.get?_eq_none.mpr hdone
    rw [this]

/-- Claim C8 (amended) at a concrete input: with one plate pending,
the response is appended to the log; with the tuner's plate list
exhausted, the call is a no-op. -/
theorem claim8_recordresponse_amended_witness :
    (TestEngine.recordResponse
        { isRunning := false, currentPlateIndex := 0,
          plates := [⟨1, 400, 14, 28, "deutanConfusion", "medium", ⟨[], []⟩,
            ⟨"number", "3"⟩, Option.none, []⟩],
          responses := [], startTime := 0, plateStartTime := 0,
          filterParams := Option.none, mode := "baseline" }
        (some "5") 7).responses =
      [] ++
        [{ plateIndex := 0, plateType := "deutanConfusion",
           targetType := "number", targetValue := "3",
           userResponse := some "5",
           isCorrect := TestEngine.checkAnswer (some "5")
             ⟨1, 400, 14, 28, "deutanConfusion", "medium", ⟨[], []⟩,
               ⟨"number", "3"⟩, Option.none, []⟩,
           responseTime := 7 - 0, difficulty := "medium", seed := 1 }] ∧
    TuningEngine.recordResponse ⟨0, [], [], 0⟩ (some "5") 7 = (⟨0, [], [], 0⟩, false) := by
  have h := claim8_recordresponse_amended
    { isRunning := false, currentPlateIndex := 0,
      plates := [⟨1, 400, 14, 28, "deutanConfusion", "medium", ⟨[], []⟩,
        ⟨"number", "3"⟩, Option.none, []⟩],
      responses := [], startTime := 0, plateStartTime := 0,
      filterParams := Option.none, mode := "baseline" }
    (some "5") 7 ⟨0, [], [], 0⟩
    ⟨1, 400, 14, 28, "deutanConfusion", "medium", ⟨[], []⟩,
      ⟨"number", "3"⟩, Option.none, []⟩ rfl (by simp)
  exact ⟨h.2.1, h.2.2⟩

/-- Claim C2: two calls of `generate` with identical requests produce
structurally identical plates (the whole plate record — target, mask,
tiles/squares with their base colors — is equal), for both the mosaic
generator and the animated outlier generator.  The entropy arguments
model the ambient `Utils.generateSeed()` default; a request that
carries a seed never consults them. -/
theorem claim2_generate_deterministic (mopts : MosaicGenerator.GenerateOptions)
    (aopts : AnimatedMosaic.AnimOptions) (s1 s2 e1 e2 e3 e4 : ℕ)
    (hm : mopts.seed = some s1) (ha : aopts.seed = some s2) :
    MosaicGenerator.generatePlate mopts e1 = MosaicGenerator.generatePlate mopts e2 ∧
    AnimatedMosaic.generatePlate aopts e3 = AnimatedMosaic.generatePlate aopts e4 := by
  constructor
  · unfold MosaicGenerator.generatePlate
    rw [hm]
    rfl
  · unfold AnimatedMosaic.generatePlate
    rw [ha]
    rfl

/-- Claim C2 at a concrete input: a seeded request is insensitive to
the ambient entropy. -/
theorem claim2_generate_deterministic_witness :
    MosaicGenerator.generatePlate { seed := some 42 } 0 =
      MosaicGenerator.generatePlate { seed := some 42 } 1 ∧
    AnimatedMosaic.generatePlate { seed := some 42 } 0 =
      AnimatedMosaic.generatePlate { seed := some 42 } 1 :=
  claim2_generate_deterministic { seed := some 42 } { seed := some 42 }
    42 42 0 1 0 1 rfl rfl

/-- The square loop builds squares indexed consecutively, flagging
exactly the outlier position. -/
theorem AnimatedMosaic.mkSquare_spec (gridSize outlierIndex : ℕ)
    (palette : AnimatedMosaic.APalette) (subtlety : ℚ) (i g : ℕ) :
    (AnimatedMosaic.mkSquare gridSize outlierIndex palette subtlety i g).1.index = i ∧
    (AnimatedMosaic.mkSquare gridSize outlierIndex palette subtlety i g).1.isOutlier =
      (i == outlierIndex) := by
  constructor <;> rfl

theorem AnimatedMosaic.mkSquares_succ (gridSize outlierIndex : ℕ)
    (palette : AnimatedMosaic.APalette) (subtlety : ℚ) (n i g : ℕ) :
    AnimatedMosaic.mkSquares gridSize outlierIndex palette subtlety (n + 1) i g =
      ((AnimatedMosaic.mkSquare gridSize outlierIndex palette subtlety i g).1 ::
        (AnimatedMosaic.mkSquares gridSize outlierIndex palette subtlety n (i + 1)
          (AnimatedMosaic.mkSquare gridSize outlierIndex palette subtlety i g).2).1,
       (AnimatedMosaic.mkSquares gridSize outlierIndex palette subtlety n (i + 1)
          (AnimatedMosaic.mkSquare gridSize outlierIndex palette subtlety i g).2).2) := rfl

theorem AnimatedMosaic.mkSquares_length (gridSize outlierIndex : ℕ)
    (palette : AnimatedMosaic.APalette) (subtlety : ℚ) :
    ∀ (n i g : ℕ),
      (AnimatedMosaic.mkSquares gridSize outlierIndex palette subtlety n i g).1.length = n := by
  intro n
  induction n with
  | zero => intro i g; rfl
  | succ n ih =>
    intro i g
    rw [AnimatedMosaic.mkSquares_succ]
    simp [ih]

theorem AnimatedMosaic.mkSquares_getD (gridSize outlierIndex : ℕ)
    (palette : AnimatedMosaic.APalette) (subtlety : ℚ) :
    ∀ (n i g j : ℕ), j < n →
      ((AnimatedMosaic.mkSquares gridSize outlierIndex palette subtlety n i g).1.getD j
          ⟨0, 0, 0, false, ⟨0, 0, 0⟩, ⟨0, 0, 0⟩, 0, 0, 0⟩).index = i + j ∧
      ((AnimatedMosaic.mkSquares gridSize outlierIndex palette subtlety n i g).1.getD j
          ⟨0, 0, 0, false, ⟨0, 0, 0⟩, ⟨0, 0, 0⟩, 0, 0, 0⟩).isOutlier =
        ((i + j) == outlierIndex) := by
  intro n
  induction n with
  | zero => intro i g j hj; omega
  | succ n ih =>
    intro i g j hj
    rw [AnimatedMosaic.mkSquares_succ]
    cases j with
    | zero =>
      simpa using AnimatedMosaic.mkSquare_spec gridSize outlierIndex palette subtlety i g
    | succ j =>
      have hj2 : j < n := by omega
      have h := ih (i + 1) (AnimatedMosaic.mkSquare gridSize outlierIndex palette
        subtlety i g).2 j hj2
      simp only [List.getD_cons_succ]
      constructor
      · rw [h.1]; omega
      · rw [h.2]
        congr 1
        omega

/-- The grid is never empty. -/
theorem AnimatedMosaic.gridSizeFor_pos (difficulty : String) :
    0 < AnimatedMosaic.gridSizeFor difficulty := by
  unfold AnimatedMosaic.gridSizeFor
  split_ifs <;> norm_num

/-- Claim C10: every plate of the animated outlier generator has
`outlierIndex < gridSize²`, exactly `gridSize²` squares, and
`squares[i].isOutlier` holds iff `i = outlierIndex` — a unique correct
answer. -/
theorem claim10_unique_outlier (options : AnimatedMosaic.AnimOptions)
    (entropy : ℕ) (i : ℕ)
    (hi : i < (AnimatedMosaic.generatePlate options entropy).gridSize ^ 2) :
    (AnimatedMosaic.generatePlate options entropy).outlierIndex <
      (AnimatedMosaic.generatePlate options entropy).gridSize ^ 2 ∧
    (AnimatedMosaic.generatePlate options entropy).squares.length =
      (AnimatedMosaic.generatePlate options entropy).gridSize ^ 2 ∧
    (((AnimatedMosaic.generatePlate options entropy).squares.getD i
        ⟨0, 0, 0, false, ⟨0, 0, 0⟩, ⟨0, 0, 0⟩, 0, 0, 0⟩).isOutlier = true ↔
      i = (AnimatedMosaic.generatePlate options entropy).outlierIndex) := by
  have hgrid : (AnimatedMosaic.generatePlate options entropy).gridSize =
      AnimatedMosaic.gridSizeFor options.difficulty := rfl
  have hpos : 0 < AnimatedMosaic.gridSizeFor options.difficulty :=
    AnimatedMosaic.gridSizeFor_pos options.difficulty
  set gs := AnimatedMosaic.gridSizeFor options.difficulty with hgs
  set seed := options.seed.getD entropy with hseed
  set rng := Utils.createRNG seed with hrng
  set paletteList := if options.type = "control" then AnimatedMosaic.palettesControl
    else AnimatedMosaic.palettesDeutan with hpl
  set pal := (Utils.randomPick paletteList
    ⟨"", ⟨0, 0, 0⟩, ⟨0, 0, 0⟩, ⟨0, 0, 0⟩⟩ rng).1 with hpal
  set rng1 := (Utils.randomPick paletteList
    ⟨"", ⟨0, 0, 0⟩, ⟨0, 0, 0⟩, ⟨0, 0, 0⟩⟩ rng).2 with hrng1
  set u := (Utils.rngNext rng1).1 with hu
  set rng2 := (Utils.rngNext rng1).2 with hrng2
  have hout : (AnimatedMosaic.generatePlate options entropy).outlierIndex =
      Nat.floor (u * ((gs * gs : ℕ) : ℚ)) := rfl
  have hsquares : (AnimatedMosaic.generatePlate options entropy).squares =
      (AnimatedMosaic.mkSquares gs (Nat.floor (u * ((gs * gs : ℕ) : ℚ)))
        pal options.subtlety (gs * gs) 0 rng2).1 := rfl
  have humem := Utils.rngNext_mem rng1
  have htot : (0 : ℚ) < ((gs * gs : ℕ) : ℚ) := by
    have : 0 < gs * gs := Nat.mul_pos hpos hpos
    exact_mod_cast this
  have houtlt : Nat.floor (u * ((gs * gs : ℕ) : ℚ)) < gs * gs := by
    rw [Nat.floor_lt (mul_nonneg humem.1 (le_of_lt htot))]
    calc u * ((gs * gs : ℕ) : ℚ) < 1 * ((gs * gs : ℕ) : ℚ) := by
          exact mul_lt_mul_of_pos_right humem.2 htot
      _ = ((gs * gs : ℕ) : ℚ) := one_mul _
  have hsq : (AnimatedMosaic.generatePlate options entropy).gridSize ^ 2 = gs * gs := by
    rw [hgrid]; ring
  rw [hsq] at hi ⊢
  refine ⟨by rw [hout]; exact houtlt, ?_, ?_⟩
  · rw [hsquares, AnimatedMosaic.mkSquares_length]
  · have h := AnimatedMosaic.mkSquares_getD gs
      (Nat.floor (u * ((gs * gs : ℕ) : ℚ))) pal options.subtlety
      (gs * gs) 0 rng2 i hi
    rw [hsquares, hout]
    rw [h.2]
    simp [Nat.beq_eq_true_eq]

/-- Claim C10 at a concrete input: the first square of a concrete
easy plate is the outlier exactly when its index matches. -/
theorem claim10_unique_outlier_witness :
    (AnimatedMosaic.generatePlate { difficulty := "easy", seed := some 7 } 0).outlierIndex <
      (AnimatedMosaic.generatePlate { difficulty := "easy", seed := some 7 } 0).gridSize ^ 2 :=
  (claim10_unique_outlier { difficulty := "easy", seed := some 7 } 0 0
    (by
      have h : (AnimatedMosaic.generatePlate
          { difficulty := "easy", seed := some 7 } 0).gridSize = 2 := rfl
      rw [h]; norm_num)).1

/-- `hue2rgb` on `[1/6, 1/2]` returns `q`. -/
theorem Utils.hue2rgb_eq_q {p q t : ℚ} (h1 : 1/6 ≤ t) (h2 : t ≤ 1/2) :
    Utils.hue2rgb p q t = q := by
  unfold Utils.hue2rgb
  dsimp only
  rw [if_neg (show ¬t < 0 by linarith)]
  rw [if_neg (show ¬t > 1 by linarith)]
  split_ifs with ha hb hc
  · linarith
  · rfl
  · have ht : t = 1/2 := by linarith
    rw [ht]; ring
  · linarith

/-- `hue2rgb` on `[2/3, 1]` returns `p`. -/
theorem Utils.hue2rgb_eq_p {p q t : ℚ} (h1 : 2/3 ≤ t) (h2 : t ≤ 1) :
    Utils.hue2rgb p q t = p := by
  unfold Utils.hue2rgb
  dsimp only
  rw [if_neg (show ¬t < 0 by linarith)]
  rw [if_neg (show ¬t > 1 by linarith)]
  split_ifs with ha hb hc
  · linarith
  · linarith
  · linarith
  · rfl

/-- `hue2rgb` on `[0, 1/6]` is the rising ramp. -/
theorem Utils.hue2rgb_ramp_up {p q t : ℚ} (h1 : 0 ≤ t) (h2 : t ≤ 1/6) :
    Utils.hue2rgb p q t = p + (q - p) * 6 * t := by
  unfold Utils.hue2rgb
  dsimp only
  rw [if_neg (show ¬t < 0 by linarith)]
  rw [if_neg (show ¬t > 1 by linarith)]
  split_ifs with ha hb hc
  · rfl
  · have ht : t = 1/6 := by linarith
    rw [ht]; ring
  · linarith
  · linarith

/-- `hue2rgb` on `[1/2, 2/3]` is the falling ramp. -/
theorem Utils.hue2rgb_ramp_down {p q t : ℚ} (h1 : 1/2 ≤ t) (h2 : t ≤ 2/3) :
    Utils.hue2rgb p q t = p + (q - p) * (2/3 - t) * 6 := by
  unfold Utils.hue2rgb
  dsimp only
  rw [if_neg (show ¬t < 0 by linarith)]
  rw [if_neg (show ¬t > 1 by linarith)]
  split_ifs with ha hb hc
  · linarith
  · have ht : t = 1/2 := by linarith
    rw [ht]; ring
  · rfl
  · have ht : t = 2/3 := by linarith
    rw [ht]; ring

/-- `hue2rgb` wraps negative arguments by a full turn. -/
theorem Utils.hue2rgb_add_one {p q t : ℚ} (h1 : -1 ≤ t) (h2 : t < 0) :
    Utils.hue2rgb p q t = Utils.hue2rgb p q (t + 1) := by
  unfold Utils.hue2rgb
  dsimp only
  rw [if_pos h2, if_neg (by linarith : ¬t + 1 < 0), if_neg (by linarith : ¬t + 1 > 1)]

/-- `hue2rgb` wraps arguments above one by a full turn. -/
theorem Utils.hue2rgb_sub_one {p q t : ℚ} (h1 : 1 < t) (h2 : t ≤ 2) :
    Utils.hue2rgb p q t = Utils.hue2rgb p q (t - 1) := by
  unfold Utils.hue2rgb
  dsimp only
  rw [if_neg (by linarith : ¬t < 0), if_pos h1,
    if_neg (by linarith : ¬t - 1 < 0), if_neg (by linarith : ¬t - 1 > 1)]

set_option maxHeartbeats 1600000 in
/-- Exactness of the modelled color conversions: on in-range channels,
`rgbToHsl` yields a hue in `[0,360)` and a saturation in `[0,100]`,
and `hslToRgb` inverts it exactly. -/
theorem Utils.rgbToHsl_spec (r g b : ℚ) (hr0 : 0 ≤ r) (hr1 : r ≤ 255)
    (hg0 : 0 ≤ g) (hg1 : g ≤ 255) (hb0 : 0 ≤ b) (hb1 : b ≤ 255) :
    ∀ h s l : ℚ, Utils.rgbToHsl r g b = (h, s, l) →
      0 ≤ h ∧ h < 360 ∧ 0 ≤ s ∧ s ≤ 100 ∧ Utils.hslToRgb h s l = (r, g, b) := by
  intro h s l heq
  unfold Utils.rgbToHsl at heq
  dsimp only at heq
  set r1 := r / 255 with hr1d
  set g1 := g / 255 with hg1d
  set b1 := b / 255 with hb1d
  have hr255 : r1 * 255 = r := by rw [hr1d]; field_simp
  have hg255 : g1 * 255 = g := by rw [hg1d]; field_simp
  have hb255 : b1 * 255 = b := by rw [hb1d]; field_simp
  have hr1b : 0 ≤ r1 ∧ r1 ≤ 1 :=
    ⟨div_nonneg hr0 (by norm_num), by rw [hr1d, div_le_one (by norm_num)]; linarith⟩
  have hg1b : 0 ≤ g1 ∧ g1 ≤ 1 :=
    ⟨div_nonneg hg0 (by norm_num), by rw [hg1d, div_le_one (by norm_num)]; linarith⟩
  have hb1b : 0 ≤ b1 ∧ b1 ≤ 1 :=
    ⟨div_nonneg hb0 (by norm_num), by rw [hb1d, div_le_one (by norm_num)]; linarith⟩
  set mx := max r1 (max g1 b1) with hmxd
  set mn := min r1 (min g1 b1) with hmnd
  have hmnr : mn ≤ r1 := min_le_left _ _
  have hmng : mn ≤ g1 := le_trans (min_le_right _ _) (min_le_left _ _)
  have hmnb : mn ≤ b1 := le_trans (min_le_right _ _) (min_le_right _ _)
  have hmxr : r1 ≤ mx := le_max_left _ _
  have hmxg : g1 ≤ mx := le_trans (le_max_left _ _) (le_max_right _ _)
  have hmxb : b1 ≤ mx := le_trans (le_max_right _ _) (le_max_right _ _)
  have hmn0 : 0 ≤ mn := le_min hr1b.1 (le_min hg1b.1 hb1b.1)
  have hmx1 : mx ≤ 1 := max_le hr1b.2 (max_le hg1b.2 hb1b.2)
  by_cases hmm : mx = mn
  · -- achromatic: r1 = g1 = b1
    rw [if_pos hmm] at heq
    have heqr : r1 = mn := le_antisymm (hmm ▸ hmxr) hmnr
    have heqg : g1 = mn := le_antisymm (hmm ▸ hmxg) hmng
    have heqb : b1 = mn := le_antisymm (hmm ▸ hmxb) hmnb
    injection heq with hh hrest
    injection hrest with hs hl
    subst hh
    subst hs
    subst hl
    refine ⟨le_refl 0, by norm_num, le_refl 0, by norm_num, ?_⟩
    unfold Utils.hslToRgb
    dsimp only
    rw [if_pos (by norm_num : (0 : ℚ) / 100 = 0)]
    have hcomp : (mx + mn) / 2 * 100 / 100 * 255 = mn * 255 := by
      rw [hmm]; ring
    simp only [Prod.mk.injEq]
    refine ⟨?_, ?_, ?_⟩
    · rw [hcomp, ← hr255, heqr]
    · rw [hcomp, ← hg255, heqg]
    · rw [hcomp, ← hb255, heqb]
  · -- chromatic
    rw [if_neg hmm] at heq
    have hmnmx : mn < mx := lt_of_le_of_ne (le_trans hmnr hmxr) (Ne.symm hmm)
    have hd : 0 < mx - mn := by linarith
    have hdne : mx - mn ≠ 0 := ne_of_gt hd
    have hsum : 0 < mx + mn := by linarith
    have hsum2 : 0 < 2 - mx - mn := by linarith
    set sE := if (mx + mn) / 2 > 1/2 then (mx - mn) / (2 - mx - mn)
      else (mx - mn) / (mx + mn) with hsEd
    have hsE0 : 0 < sE := by
      rw [hsEd]; split_ifs
      · exact div_pos hd hsum2
      · exact div_pos hd hsum
    have hsE1 : sE ≤ 1 := by
      rw [hsEd]; split_ifs
      · rw [div_le_one hsum2]; linarith
      · rw [div_le_one hsum]; linarith
    set h6 := if mx = r1 then (g1 - b1) / (mx - mn) + (if g1 < b1 then 6 else 0)
      else if mx = g1 then (b1 - r1) / (mx - mn) + 2
      else (r1 - g1) / (mx - mn) + 4 with hh6d
    injection heq with hh hrest
    injection hrest with hs hl
    subst hh
    subst hs
    subst hl
    -- the saturation bounds
    have hsb : 0 ≤ sE * 100 ∧ sE * 100 ≤ 100 := ⟨by linarith, by linarith⟩
    -- simplify the hslToRgb arguments and expose q and p
    have hgoal : Utils.hslToRgb (h6 * 60) (sE * 100) ((mx + mn) / 2 * 100) =
        (Utils.hue2rgb mn mx (h6 / 6 + 1/3) * 255,
         Utils.hue2rgb mn mx (h6 / 6) * 255,
         Utils.hue2rgb mn mx (h6 / 6 - 1/3) * 255) := by
      unfold Utils.hslToRgb
      dsimp only
      rw [show sE * 100 / 100 = sE by ring,
          show h6 * 60 / 360 = h6 / 6 by ring,
          show (mx + mn) / 2 * 100 / 100 = (mx + mn) / 2 by ring,
          if_neg (ne_of_gt hsE0)]
      have hq : (if (mx + mn) / 2 < 1/2 then (mx + mn) / 2 * (1 + sE)
          else (mx + mn) / 2 + sE - (mx + mn) / 2 * sE) = mx := by
        rcases lt_trichotomy ((mx + mn) / 2) (1/2) with hc | hc | hc
        · rw [if_pos hc, hsEd, if_neg (by linarith : ¬(mx + mn) / 2 > 1/2)]
          field_simp [ne_of_gt hsum]
          ring
        · rw [if_neg (by linarith : ¬(mx + mn) / 2 < 1/2), hsEd,
            if_neg (by linarith : ¬(mx + mn) / 2 > 1/2)]
          have hsum1 : mx + mn = 1 := by linarith
          rw [hsum1]
          field_simp
          linarith
        · rw [if_neg (by linarith : ¬(mx + mn) / 2 < 1/2), hsEd, if_pos hc]
          field_simp [ne_of_gt hsum2]
          ring
      rw [hq, show 2 * ((mx + mn) / 2) - mx = mn by ring]
    rw [hgoal]
    -- now the case analysis on which channel is maximal
    by_cases hmr : mx = r1
    · rw [if_pos hmr] at hh6d
      by_cases hgb : g1 < b1
      · -- max = r, g < b : hue in (300, 360)
        rw [if_pos hgb] at hh6d
        have hw : (g1 - b1) / (mx - mn) = -((b1 - g1) / (mx - mn)) := by ring
        rw [hw] at hh6d
        set w := (b1 - g1) / (mx - mn) with hwd
        have hw0 : 0 < w := div_pos (by linarith) hd
        have hw1 : w ≤ 1 := by
          rw [hwd, div_le_one hd]
          have : b1 ≤ mx := hmxb
          linarith
        have hmng1 : mn = g1 := by
          refine le_antisymm hmng (le_min ?_ (le_min le_rfl (by linarith)))
          rw [← hmr]; linarith [hmxg]
        refine ⟨by rw [hh6d]; linarith, by rw [hh6d]; linarith, hsb.1, hsb.2, ?_⟩
        simp only [Prod.mk.injEq]
        refine ⟨?_, ?_, ?_⟩
        · rw [hh6d, Utils.hue2rgb_sub_one (by linarith) (by linarith),
            Utils.hue2rgb_eq_q (by linarith) (by linarith), hmr, hr255]
        · rw [hh6d, Utils.hue2rgb_eq_p (by linarith) (by linarith), hmng1, hg255]
        · rw [hh6d, Utils.hue2rgb_ramp_down (by linarith) (by linarith), ← hb255]
          have hcancel : (mx - mn) * w = b1 - g1 := by
            rw [hwd, mul_comm, div_mul_cancel₀ _ hdne]
          linear_combination 255 * hcancel + 255 * hmng1
      · -- max = r, g ≥ b : hue in [0, 60]
        rw [if_neg hgb, add_zero] at hh6d
        have hgeb : b1 ≤ g1 := not_lt.mp hgb
        set u := (g1 - b1) / (mx - mn) with hud
        have hu0 : 0 ≤ u := div_nonneg (by linarith) (le_of_lt hd)
        have hu1 : u ≤ 1 := by
          rw [hud, div_le_one hd]
          have : g1 ≤ mx := hmxg
          linarith
        have hmnb1 : mn = b1 := by
          refine le_antisymm hmnb (le_min ?_ (le_min hgeb le_rfl))
          rw [← hmr]; linarith [hmxb]
        refine ⟨by rw [hh6d]; linarith, by rw [hh6d]; linarith, hsb.1, hsb.2, ?_⟩
        simp only [Prod.mk.injEq]
        refine ⟨?_, ?_, ?_⟩
        · rw [hh6d, Utils.hue2rgb_eq_q (by linarith) (by linarith), hmr, hr255]
        · rw [hh6d, Utils.hue2rgb_ramp_up (by linarith) (by linarith), ← hg255]
          have hcancel : (mx - mn) * u = g1 - b1 := by
            rw [hud, mul_comm, div_mul_cancel₀ _ hdne]
          linear_combination 255 * hcancel + 255 * hmnb1
        · rw [hh6d, Utils.hue2rgb_add_one (by linarith) (by linarith),
            Utils.hue2rgb_eq_p (by linarith) (by linarith), hmnb1, hb255]
    · rw [if_neg hmr] at hh6d
      by_cases hmg : mx = g1
      · -- max = g : hue in [60, 180]
        rw [if_pos hmg] at hh6d
        have hrlt : r1 < mx := lt_of_le_of_ne hmxr (fun hcon => hmr hcon.symm)
        set v := (b1 - r1) / (mx - mn) with hvd
        have hv1 : v ≤ 1 := by
          rw [hvd, div_le_one hd]
          have : b1 ≤ mx := hmxb
          linarith
        have hvm1 : -1 ≤ v := by
          rw [hvd, le_div_iff hd]
          have : mn ≤ b1 := hmnb
          linarith
        have hcv : (mx - mn) * v = b1 - r1 := by
          rw [hvd, mul_comm, div_mul_cancel₀ _ hdne]
        refine ⟨by rw [hh6d]; linarith, by rw [hh6d]; linarith, hsb.1, hsb.2, ?_⟩
        simp only [Prod.mk.injEq]
        refine ⟨?_, ?_, ?_⟩
        · rcases le_or_lt v 0 with hv | hv
          · have hmnb1 : mn = b1 := by
              have hble : b1 ≤ r1 := by
                have h1 := mul_le_mul_of_nonneg_left hv (le_of_lt hd)
                rw [mul_zero] at h1
                linarith [hcv]
              refine le_antisymm hmnb (le_min (by linarith) (le_min (by linarith) le_rfl))
            rw [hh6d, Utils.hue2rgb_ramp_down (by linarith) (by linarith), ← hr255]
            linear_combination 255 * hmnb1 - 255 * hcv
          · have hmnr1 : mn = r1 := by
              have hrle : r1 ≤ b1 := by
                have h1 := mul_le_mul_of_nonneg_left (le_of_lt hv) (le_of_lt hd)
                rw [mul_zero] at h1
                linarith [hcv]
              refine le_antisymm hmnr (le_min le_rfl (le_min (by linarith) hrle))
            rw [hh6d, Utils.hue2rgb_eq_p (by linarith) (by linarith), hmnr1, hr255]
        · rw [hh6d, Utils.hue2rgb_eq_q (by linarith) (by linarith), hmg, hg255]
        · rcases le_or_lt 0 v with hv | hv
          · have hmnr1 : mn = r1 := by
              have hrle : r1 ≤ b1 := by
                have h1 := mul_le_mul_of_nonneg_left hv (le_of_lt hd)
                rw [mul_zero] at h1
                linarith [hcv]
              refine le_antisymm hmnr (le_min le_rfl (le_min (by linarith) hrle))
            rw [hh6d, Utils.hue2rgb_ramp_up (by linarith) (by linarith), ← hb255]
            linear_combination 255 * hcv + 255 * hmnr1
          · have hmnb1 : mn = b1 := by
              have hble : b1 ≤ r1 := by
                have h1 := mul_le_mul_of_nonneg_left (le_of_lt hv) (le_of_lt hd)
                rw [mul_zero] at h1
                linarith [hcv]
              refine le_antisymm hmnb (le_min (by linarith) (le_min (by linarith) le_rfl))
            rw [hh6d, Utils.hue2rgb_add_one (by linarith) (by linarith),
              Utils.hue2rgb_eq_p (by linarith) (by linarith), hmnb1, hb255]
      · -- max = b : hue in [180, 300]
        have hmb : mx = b1 := by
          rcases max_choice r1 (max g1 b1) with hc | hc
          · exact absurd (hmxd ▸ hc) hmr
          · rcases max_choice g1 b1 with hc2 | hc2
            · exact absurd (by rw [hmxd, hc, hc2]) hmg
            · rw [hmxd, hc, hc2]
        rw [if_neg hmg] at hh6d
        have hrlt : r1 < mx := lt_of_le_of_ne hmxr (fun hcon => hmr hcon.symm)
        have hglt : g1 < mx := lt_of_le_of_ne hmxg (fun hcon => hmg hcon.symm)
        set w2 := (r1 - g1) / (mx - mn) with hw2d
        have hw21 : w2 ≤ 1 := by
          rw [hw2d, div_le_one hd]
          linarith
        have hw2m1 : -1 ≤ w2 := by
          rw [hw2d, le_div_iff hd]
          have : mn ≤ r1 := hmnr
          linarith
        have hcw : (mx - mn) * w2 = r1 - g1 := by
          rw [hw2d, mul_comm, div_mul_cancel₀ _ hdne]
        refine ⟨by rw [hh6d]; linarith, by rw [hh6d]; linarith, hsb.1, hsb.2, ?_⟩
        simp only [Prod.mk.injEq]
        refine ⟨?_, ?_, ?_⟩
        · rcases le_or_lt w2 0 with hv | hv
          · have hmnr1 : mn = r1 := by
              have hrg : r1 ≤ g1 := by
                have h1 := mul_le_mul_of_nonneg_left hv (le_of_lt hd)
                rw [mul_zero] at h1
                linarith [hcw]
              refine le_antisymm hmnr (le_min le_rfl (le_min hrg (by linarith)))
            rw [hh6d, Utils.hue2rgb_eq_p (by linarith) (by linarith), hmnr1, hr255]
          · have hmng1 : mn = g1 := by
              have hgr : g1 ≤ r1 := by
                have h1 := mul_le_mul_of_nonneg_left (le_of_lt hv) (le_of_lt hd)
                rw [mul_zero] at h1
                linarith [hcw]
              refine le_antisymm hmng (le_min hgr (le_min le_rfl (by linarith)))
            rw [hh6d, Utils.hue2rgb_sub_one (by linarith) (by linarith),
              Utils.hue2rgb_ramp_up (by linarith) (by linarith), ← hr255]
            linear_combination 255 * hcw + 255 * hmng1
        · rcases le_or_lt w2 0 with hv | hv
          · have hmnr1 : mn = r1 := by
              have hrg : r1 ≤ g1 := by
                have h1 := mul_le_mul_of_nonneg_left hv (le_of_lt hd)
                rw [mul_zero] at h1
                linarith [hcw]
              refine le_antisymm hmnr (le_min le_rfl (le_min hrg (by linarith)))
            rw [hh6d, Utils.hue2rgb_ramp_down (by linarith) (by linarith), ← hg255]
            linear_combination 255 * hmnr1 - 255 * hcw
          · have hmng1 : mn = g1 := by
              have hgr : g1 ≤ r1 := by
                have h1 := mul_le_mul_of_nonneg_left (le_of_lt hv) (le_of_lt hd)
                rw [mul_zero] at h1
                linarith [hcw]
              refine le_antisymm hmng (le_min hgr (le_min le_rfl (by linarith)))
            rw [hh6d, Utils.hue2rgb_eq_p (by linarith) (by linarith), hmng1, hg255]
        · rw [hh6d, Utils.hue2rgb_eq_q (by linarith) (by linarith), hmb, hb255]

/-- A zero hue shift makes the selective hue rotation a no-op whatever
the hue and intensity. -/
theorem ColorFilter.calculateSelectiveHueShift_zero (hue intensity : ℚ) :
    ColorFilter.calculateSelectiveHueShift hue 0 intensity = 0 := by
  unfold ColorFilter.calculateSelectiveHueShift
  dsimp only
  split_ifs <;> ring

/-- Claim C4: `applyToRGB` returns the color unchanged whenever every
parameter is 0 or the intensity is 0 — in particular an all-zero
filter is the identity on (integer, in-range) colors even when the
intensity is nonzero, each sub-step reducing to a no-op — and a
missing (`null`) parameter record is also the identity. -/
theorem claim4_filter_identity (p : ColorFilter.FilterParams) (ri gi bi : ℤ)
    (hr0 : 0 ≤ ri) (hr1 : ri ≤ 255) (hg0 : 0 ≤ gi) (hg1 : gi ≤ 255)
    (hb0 : 0 ≤ bi) (hb1 : bi ≤ 255)
    (hp : (p.hueShift = 0 ∧ p.saturationBoost = 0 ∧ p.brightness = 0 ∧
        p.contrast = 0) ∨ p.intensity = 0) :
    ColorFilter.applyToRGB ((ri : ℚ), (gi : ℚ), (bi : ℚ)) (some p) =
      ((ri : ℚ), (gi : ℚ), (bi : ℚ)) ∧
    ColorFilter.applyToRGB ((ri : ℚ), (gi : ℚ), (bi : ℚ)) Option.none =
      ((ri : ℚ), (gi : ℚ), (bi : ℚ)) := by
  refine ⟨?_, rfl⟩
  unfold ColorFilter.applyToRGB
  dsimp only
  by_cases hint : p.intensity = 0
  · rw [if_pos hint]
  · rw [if_neg hint]
    rcases hp with ⟨hhs, hsat, hbr, hcon⟩ | h0
    swap
    · exact absurd h0 hint
    rcases hhsl : Utils.rgbToHsl (ri : ℚ) (gi : ℚ) (bi : ℚ) with ⟨h, sl⟩
    rcases sl with ⟨s, l⟩
    obtain ⟨hh0, hh360, hs0, hs100, hinv⟩ :=
      Utils.rgbToHsl_spec (ri : ℚ) (gi : ℚ) (bi : ℚ)
        (by exact_mod_cast hr0) (by exact_mod_cast hr1)
        (by exact_mod_cast hg0) (by exact_mod_cast hg1)
        (by exact_mod_cast hb0) (by exact_mod_cast hb1) h s l hhsl
    dsimp only
    rw [hhs, ColorFilter.calculateSelectiveHueShift_zero, add_zero,
      Utils.jsMod_add_self_eq hh0 hh360, hsat, zero_mul, add_zero,
      Utils.clamp_eq_self hs0 hs100, hinv]
    dsimp only
    rw [if_neg (not_ne_iff.mpr hbr), if_neg (not_ne_iff.mpr hcon)]
    simp [Utils.jsRound_intCast]

/-- Claim C4 at a concrete input: the all-zero filter with intensity
1 leaves the color (10, 20, 30) unchanged. -/
theorem claim4_filter_identity_witness :
    ColorFilter.applyToRGB ((10 : ℚ), (20 : ℚ), (30 : ℚ))
      (some ⟨0, 1, 0, 0, 0⟩) = ((10 : ℚ), (20 : ℚ), (30 : ℚ)) := by
  have h := claim4_filter_identity ⟨0, 1, 0, 0, 0⟩ 10 20 30
    (by norm_num) (by norm_num) (by norm_num) (by norm_num) (by norm_num)
    (by norm_num) (Or.inl ⟨rfl, rfl, rfl, rfl⟩)
  exact_mod_cast h.1
